import Mathlib

/-!
Verification development for the statistical aggregation and reconciliation
pipeline of the Actual-Analytics repository.  The Python/SQL ingest scripts
under `src/ingest/` are shallowly embedded as executable Lean definitions:
DataFrames and SQL tables become lists of structures, SQL `NULL` becomes
`Option`, SQL aggregates become folds over lists, and floating-point numbers
are modelled as rationals (`ℚ`).  The theorems at the end of the file settle
the specification claims against these embeddings.
-/

/-- SQL null-safe string equality: `a = b` in SQL is false (not true) when
either side is `NULL`.  Used for join/filter conditions such as
`p.pfr_id = pb.passer_player_id`. -/
def sqlStrEq (a b : Option String) : Bool :=
  match a, b with
  | some x, some y => x == y
  | _, _ => false

/-- One row of the `"Play"` table / one play-by-play record from the upstream
provider (columns restricted to the ones the pipeline reads).  Boolean flags
are normalized booleans, numeric fields are nullable (`Option`), EPA and CPOE
are nullable rationals, `success` is the 0/1 numeric success flag after
`fillna(0)`. -/
structure Play where
  game_id : String
  play_id : String
  season : Int
  week : Option Int
  game_date : String
  play_type : String
  season_type : String
  passer_player_id : Option String
  rusher_player_id : Option String
  receiver_player_id : Option String
  passing_yards : Option Int
  rushing_yards : Option Int
  receiving_yards : Option Int
  pass_attempt : Bool
  complete_pass : Bool
  sack : Bool
  interception : Bool
  rush_attempt : Bool
  pass_touchdown : Bool
  rush_touchdown : Bool
  epa : Option ℚ
  success : Nat
  cpoe : Option ℚ
deriving DecidableEq

/-- A neutral play record; concrete test inputs override the relevant fields. -/
def basePlay : Play :=
  { game_id := "g", play_id := "1", season := 0, week := none, game_date := "d"
    play_type := "pass", season_type := "REG"
    passer_player_id := none, rusher_player_id := none, receiver_player_id := none
    passing_yards := none, rushing_yards := none, receiving_yards := none
    pass_attempt := false, complete_pass := false, sack := false
    interception := false, rush_attempt := false
    pass_touchdown := false, rush_touchdown := false
    epa := none, success := 0, cpoe := none }

/-- One row of the `"Player"` table (columns the pipeline reads). -/
structure Player where
  id : Int
  pfr_id : Option String
  name : String
  position : String
deriving DecidableEq

/-! ### Per-Player Statistical Aggregator (`calculate_medians_fast.py`)

The SQL query aggregates, per player, the yardage values of qualifying plays
into a vector (`array_agg ... FILTER`), then computes
`percentile_cont(0.5) WITHIN GROUP (ORDER BY x)` and `AVG(x)` over the vector,
leaving the field `NULL` when the vector is `NULL` (no qualifying play). -/

/-- Qualification filter of the passing-yards vector (`pass_vec` in the SQL):
season matches, `passing_yards IS NOT NULL`, `pass_attempt = true`,
`sack = false`, `play_type NOT IN ('qb_spike')`, and the player's `pfr_id`
equals the play's `passer_player_id` (SQL equality, null-safe false). -/
def passVecFilter (season : Int) (pfr : Option String) (pb : Play) : Bool :=
  decide (pb.season = season) && pb.passing_yards.isSome && pb.pass_attempt &&
    !pb.sack && !(pb.play_type == "qb_spike") && sqlStrEq pfr pb.passer_player_id

/-- Qualification filter of the rushing-yards vector (`rush_vec`). -/
def rushVecFilter (season : Int) (pfr : Option String) (pb : Play) : Bool :=
  decide (pb.season = season) && pb.rushing_yards.isSome && pb.rush_attempt &&
    sqlStrEq pfr pb.rusher_player_id

/-- Qualification filter of the receiving-yards vector (`recv_vec`). -/
def recvVecFilter (season : Int) (pfr : Option String) (pb : Play) : Bool :=
  decide (pb.season = season) && pb.receiving_yards.isSome && pb.complete_pass &&
    sqlStrEq pfr pb.receiver_player_id

/-- The passing-yards vector of one player for one season, as rationals. -/
def pass_vec (plays : List Play) (p : Player) (season : Int) : List ℚ :=
  ((plays.filter (passVecFilter season p.pfr_id)).filterMap (·.passing_yards)).map
    (fun y => (y : ℚ))

/-- The rushing-yards vector of one player for one season. -/
def rush_vec (plays : List Play) (p : Player) (season : Int) : List ℚ :=
  ((plays.filter (rushVecFilter season p.pfr_id)).filterMap (·.rushing_yards)).map
    (fun y => (y : ℚ))

/-- The receiving-yards vector of one player for one season. -/
def recv_vec (plays : List Play) (p : Player) (season : Int) : List ℚ :=
  ((plays.filter (recvVecFilter season p.pfr_id)).filterMap (·.receiving_yards)).map
    (fun y => (y : ℚ))

/-- Ascending sort of a list of rationals (the `ORDER BY x` of the
`WITHIN GROUP` clause). -/
def sortQ (l : List ℚ) : List ℚ :=
  l.insertionSort (· ≤ ·)

/-- PostgreSQL `percentile_cont(f) WITHIN GROUP (ORDER BY x)` applied to an
already-sorted list: the continuous percentile with row position
`f * (n - 1)`, linearly interpolating between the two neighbouring values
when the position is fractional.  `NULL` (none) on an empty group. -/
def percentileCont (f : ℚ) (s : List ℚ) : Option ℚ :=
  if s.isEmpty then none
  else
    let pos : ℚ := f * ((s.length : ℚ) - 1)
    let lo : ℕ := (⌊pos⌋).toNat
    let frac : ℚ := pos - (⌊pos⌋ : ℚ)
    match s[lo]?, s[lo + 1]? with
    | some a, some b => some (a + frac * (b - a))
    | some a, none => some a
    | _, _ => none

/-- SQL `AVG(x)` over a group: `NULL` on an empty group, else the arithmetic
mean. -/
def sqlAvg (l : List ℚ) : Option ℚ :=
  if l.isEmpty then none else some (l.sum / l.length)

/-- The spec's median of an already-sorted list: the middle value when the
count is odd, the average of the two middle values when the count is even; no
value for an empty list.  This is the spec-side definition, written
independently of the SQL `percentile_cont` embedding so that the two can be
compared. -/
def medianOfSorted (s : List ℚ) : Option ℚ :=
  if s.length = 0 then none
  else if s.length % 2 = 1 then s[s.length / 2]?
  else
    match s[s.length / 2 - 1]?, s[s.length / 2]? with
    | some a, some b => some ((a + b) / 2)
    | _, _ => none

/-- Median as the specification words it (linear-interpolation / 50th
percentile continuous definition): sort, then take the middle value or the
average of the two middle values. -/
def medianLinearInterp (l : List ℚ) : Option ℚ :=
  medianOfSorted (sortQ l)

/-- One row of the `"PlayerStats"` table (the spec's PlayerSeasonStats). -/
structure PlayerStatsRow where
  playerId : Int
  season : Int
  median_yards_per_pass_attempt : Option ℚ
  average_yards_per_pass_attempt : Option ℚ
  median_yards_per_rushing_attempt : Option ℚ
  average_yards_per_rushing_attempt : Option ℚ
  median_yards_per_reception : Option ℚ
  average_yards_per_reception : Option ℚ
deriving DecidableEq

/-- The `final` CTE of `calculate_medians_for_season`: for one player, each
median/average field is `NULL` when the corresponding vector is `NULL`
(empty), otherwise `percentile_cont(0.5)` / `AVG` over the vector. -/
def calculate_medians_row (plays : List Play) (p : Player) (season : Int) :
    PlayerStatsRow :=
  let pv := pass_vec plays p season
  let rv := rush_vec plays p season
  let cv := recv_vec plays p season
  { playerId := p.id
    season := season
    median_yards_per_pass_attempt :=
      if pv.isEmpty then none else percentileCont (1/2) (sortQ pv)
    average_yards_per_pass_attempt := if pv.isEmpty then none else sqlAvg pv
    median_yards_per_rushing_attempt :=
      if rv.isEmpty then none else percentileCont (1/2) (sortQ rv)
    average_yards_per_rushing_attempt := if rv.isEmpty then none else sqlAvg rv
    median_yards_per_reception :=
      if cv.isEmpty then none else percentileCont (1/2) (sortQ cv)
    average_yards_per_reception := if cv.isEmpty then none else sqlAvg cv }



/-! ### Play Ingestor (`load_pbp_fast.py`)

`load_pbp_season` fetches a season, keeps regular-season plays, filters out
plays whose `(game_id, play_id)` string pair is already stored for that
season, and bulk-appends the remainder (COPY; no updates of existing rows). -/

/-- Composite natural key of a play: `(game_id, play_id)` as strings. -/
def playKey (p : Play) : String × String := (p.game_id, p.play_id)

/-- `SELECT DISTINCT game_id, play_id FROM "Play" WHERE season = :season`:
the keys already present in the store for the season. -/
def existingKeys (store : List Play) (season : Int) : List (String × String) :=
  ((store.filter (fun p => decide (p.season = season))).map playKey).dedup

/-- Result of one ingest run: the updated store and the inserted-row count. -/
structure LoadResult where
  store : List Play
  inserted : Nat
deriving DecidableEq

/-- `load_pbp_season`: restrict the fetched plays to regular season, drop the
ones whose key is already stored for this season, append the rest. -/
def load_pbp_season (store : List Play) (season : Int) (fetched : List Play) :
    LoadResult :=
  let reg := fetched.filter (fun p => p.season_type == "REG")
  let existing := existingKeys store season
  let newPlays := reg.filter (fun p => !(existing.contains (playKey p)))
  { store := store ++ newPlays, inserted := newPlays.length }

/-! ### Game-Week Aggregator (`fix_2025_gamestat_weeks_fast.py`)

The script deletes every GameStat row of the season and re-inserts rows
computed by a single grouped SQL query: one candidate row per distinct
`(player, pfr_id, season, week, game_date)` appearing in any role, with
role-filtered sums, and a final `WHERE passing_yds > 0 OR rushing_yds > 0 OR
receiving_yds > 0`. -/

/-- One row of the `"GameStat"` table (all columns the pipeline touches).
`week = none` is the distinguished season-aggregate row. -/
structure GameStat where
  playerId : Int
  season : Int
  week : Option Int
  gameDate : String
  games : Option Int
  passingYds : Int
  passing_tds : Int
  passing_sacks : Int
  passing_interceptions : Int
  passing_attempts : Int
  passing_completions : Int
  rushingYds : Int
  rushing_attempts : Int
  rushing_tds : Int
  receivingYds : Int
  receiving_tds : Int
  receptions : Int
  targets : Int
  cpoe : Option ℚ
  passing_epa : Option ℚ
  passing_epa_per_play : Option ℚ
  passing_success_rate : Option ℚ
  rushing_epa : Option ℚ
  rushing_epa_per_play : Option ℚ
  rushing_success_rate : Option ℚ
  receiving_epa : Option ℚ
  receiving_epa_per_play : Option ℚ
  receiving_success_rate : Option ℚ
  epa : Option ℚ
  success_rate : Option ℚ
deriving DecidableEq

/-- The join condition `p.pfr_id IN (passer, rusher, receiver)` with SQL null
semantics. -/
def playRoleMatch (pfr : Option String) (pb : Play) : Bool :=
  sqlStrEq pfr pb.passer_player_id || sqlStrEq pfr pb.rusher_player_id ||
    sqlStrEq pfr pb.receiver_player_id

/-- One element of the `player_weeks` CTE. -/
structure PlayerWeek where
  player_id : Int
  pfr_id : Option String
  season : Int
  week : Int
  game_date : String
deriving DecidableEq

/-- The `player_weeks` CTE: all distinct `(player, pfr_id, season, week,
game_date)` combinations where the player appears in any role in a play of
the season with a non-null week. -/
def player_weeks (players : List Player) (plays : List Play) (year : Int) :
    List PlayerWeek :=
  (players.flatMap (fun p =>
    (plays.filter (fun pb =>
        playRoleMatch p.pfr_id pb && decide (pb.season = year) && pb.week.isSome)).filterMap
      (fun pb => pb.week.map (fun w =>
        { player_id := p.id, pfr_id := p.pfr_id, season := pb.season
          week := w, game_date := pb.game_date })))).dedup

/-- The group of plays joined to one `player_weeks` element (the `LEFT JOIN`
in the `aggregated` CTE). -/
def pwPlays (plays : List Play) (pw : PlayerWeek) : List Play :=
  plays.filter (fun pb =>
    decide (pb.season = pw.season) && (pb.week == some pw.week) &&
      playRoleMatch pw.pfr_id pb)

/-- The passing-stat qualification inside the aggregated CASE expressions:
the play's passer is this player, `pass_attempt = true`, `sack = false`, and
the play is not a spike. -/
def passAggQual (pfr : Option String) (pb : Play) : Bool :=
  sqlStrEq pfr pb.passer_player_id && pb.pass_attempt && !pb.sack &&
    !(pb.play_type == "qb_spike")

/-- One row produced by the `aggregated` CTE of `insert_all_stats`:
`COALESCE(SUM(CASE WHEN cond THEN field ELSE 0 END), 0)` becomes a sum of the
non-null field values over the qualifying plays, counts become lengths, and
CPOE is `COALESCE(AVG(CASE WHEN qualifying THEN cpoe END), 0)` — average of
the non-null CPOE values of qualifying passing plays, coalesced to zero. -/
def insert_all_stats_row (plays : List Play) (pw : PlayerWeek) : GameStat :=
  let g := pwPlays plays pw
  { playerId := pw.player_id
    season := pw.season
    week := some pw.week
    gameDate := pw.game_date
    games := none
    passingYds := ((g.filter (passAggQual pw.pfr_id)).filterMap (·.passing_yards)).sum
    passing_tds :=
      ((g.filter (fun pb => passAggQual pw.pfr_id pb && pb.pass_touchdown)).length : Int)
    passing_sacks :=
      ((g.filter (fun pb => sqlStrEq pw.pfr_id pb.passer_player_id && pb.sack)).length : Int)
    passing_interceptions :=
      ((g.filter (fun pb => sqlStrEq pw.pfr_id pb.passer_player_id &&
        pb.pass_attempt && pb.interception)).length : Int)
    passing_attempts := ((g.filter (passAggQual pw.pfr_id)).length : Int)
    passing_completions :=
      ((g.filter (fun pb => sqlStrEq pw.pfr_id pb.passer_player_id &&
        pb.complete_pass)).length : Int)
    rushingYds :=
      ((g.filter (fun pb => sqlStrEq pw.pfr_id pb.rusher_player_id &&
        pb.rush_attempt)).filterMap (·.rushing_yards)).sum
    rushing_attempts :=
      ((g.filter (fun pb => sqlStrEq pw.pfr_id pb.rusher_player_id &&
        pb.rush_attempt)).length : Int)
    rushing_tds :=
      ((g.filter (fun pb => sqlStrEq pw.pfr_id pb.rusher_player_id &&
        pb.rush_touchdown)).length : Int)
    receivingYds :=
      ((g.filter (fun pb => sqlStrEq pw.pfr_id pb.receiver_player_id)).filterMap
        (·.receiving_yards)).sum
    receiving_tds :=
      ((g.filter (fun pb => sqlStrEq pw.pfr_id pb.receiver_player_id &&
        pb.pass_touchdown)).length : Int)
    receptions :=
      ((g.filter (fun pb => sqlStrEq pw.pfr_id pb.receiver_player_id &&
        pb.complete_pass)).length : Int)
    targets :=
      ((g.filter (fun pb => sqlStrEq pw.pfr_id pb.receiver_player_id &&
        pb.pass_attempt)).length : Int)
    cpoe :=
      some ((sqlAvg ((g.filter (passAggQual pw.pfr_id)).filterMap (·.cpoe))).getD 0)
    passing_epa := none, passing_epa_per_play := none, passing_success_rate := none
    rushing_epa := none, rushing_epa_per_play := none, rushing_success_rate := none
    receiving_epa := none, receiving_epa_per_play := none, receiving_success_rate := none
    epa := none, success_rate := none }

/-- The emission test of the final `SELECT`: `WHERE passing_yds > 0 OR
rushing_yds > 0 OR receiving_yds > 0`. -/
def emitRow (r : GameStat) : Bool :=
  decide (0 < r.passingYds) || decide (0 < r.rushingYds) || decide (0 < r.receivingYds)

/-- The whole script for one season: `DELETE FROM "GameStat" WHERE season =
year` followed by the grouped `INSERT ... SELECT`. -/
def fix_gamestat_weeks (tbl : List GameStat) (players : List Player)
    (plays : List Play) (year : Int) : List GameStat :=
  let kept := tbl.filter (fun r => !(decide (r.season = year)))
  let rows := (player_weeks players plays year).map (insert_all_stats_row plays)
  kept ++ rows.filter emitRow

/-! ### Weekly Efficiency Metrics Engine (`calculate_weekly_epa.py`)

The script groups the provider play-by-play by `(passer_player_id, week)`
under the mask `pass_attempt == True`, by `(rusher_player_id, week)` under
`rush_attempt == True`, and by `(receiver_player_id, week)` under
`pass_attempt == True`, aggregating `sum(epa)` (pandas: NaN values skipped),
`size` and `sum(success)`; outer-merges the three; computes per-play EPA and
success rates (`NaN` when the role count is zero); and batch-UPDATEs only the
`(player, week)` GameStat rows already present for the season, touching only
the EPA/success-rate columns. -/

/-- Plays of one passing group `(passer_player_id = pfr, week = w)` under the
weekly passing mask, which is only `pass_attempt == True`. -/
def weeklyPassPlays (pbp : List Play) (pfr : String) (w : Int) : List Play :=
  pbp.filter (fun pb =>
    pb.pass_attempt && (pb.passer_player_id == some pfr) && (pb.week == some w))

/-- Plays of one rushing group under the weekly rushing mask
(`rush_attempt == True`). -/
def weeklyRushPlays (pbp : List Play) (pfr : String) (w : Int) : List Play :=
  pbp.filter (fun pb =>
    pb.rush_attempt && (pb.rusher_player_id == some pfr) && (pb.week == some w))

/-- Plays of one receiving group under the weekly receiving mask
(`pass_attempt == True` with the receiver as group key). -/
def weeklyRecvPlays (pbp : List Play) (pfr : String) (w : Int) : List Play :=
  pbp.filter (fun pb =>
    pb.pass_attempt && (pb.receiver_player_id == some pfr) && (pb.week == some w))

/-- Pandas `sum` of the `epa` column of a group: NaN (`none`) entries are
skipped; the sum of an empty or all-NaN group is `0`. -/
def epaSum (g : List Play) : ℚ := (g.filterMap (·.epa)).sum

/-- Sum of the (normalized, `fillna(0)`) `success` column of a group. -/
def successSum (g : List Play) : ℕ := (g.map (·.success)).sum

/-- One row of the merged weekly dataframe for a `(pfr_id, week)` pair:
role EPA sums are NaN (`none`) when the role group is absent, counts and
success sums are zero-filled, per-play and rate columns are NaN when the
role count is zero, `total_epa` sums the role EPAs treating NaN as zero but
is NaN when the total play count is zero. -/
structure WeeklyMetrics where
  passing_epa : Option ℚ
  passing_count : ℕ
  passing_success : ℕ
  rushing_epa : Option ℚ
  rushing_count : ℕ
  rushing_success : ℕ
  receiving_epa : Option ℚ
  receiving_count : ℕ
  receiving_success : ℕ
  passing_epa_per_play : Option ℚ
  rushing_epa_per_play : Option ℚ
  receiving_epa_per_play : Option ℚ
  passing_success_rate : Option ℚ
  rushing_success_rate : Option ℚ
  receiving_success_rate : Option ℚ
  total_plays : ℕ
  total_epa : Option ℚ
  success_rate : Option ℚ
deriving DecidableEq

/-- The merged weekly aggregation for one `(pfr_id, week)` pair. -/
def weeklyMetrics (pbp : List Play) (pfr : String) (w : Int) : WeeklyMetrics :=
  let pg := weeklyPassPlays pbp pfr w
  let rg := weeklyRushPlays pbp pfr w
  let cg := weeklyRecvPlays pbp pfr w
  let pc := pg.length
  let rc := rg.length
  let cc := cg.length
  { passing_epa := if pc = 0 then none else some (epaSum pg)
    passing_count := pc
    passing_success := successSum pg
    rushing_epa := if rc = 0 then none else some (epaSum rg)
    rushing_count := rc
    rushing_success := successSum rg
    receiving_epa := if cc = 0 then none else some (epaSum cg)
    receiving_count := cc
    receiving_success := successSum cg
    passing_epa_per_play := if pc = 0 then none else some (epaSum pg / pc)
    rushing_epa_per_play := if rc = 0 then none else some (epaSum rg / rc)
    receiving_epa_per_play := if cc = 0 then none else some (epaSum cg / cc)
    passing_success_rate :=
      if pc = 0 then none else some ((successSum pg : ℚ) / pc * 100)
    rushing_success_rate :=
      if rc = 0 then none else some ((successSum rg : ℚ) / rc * 100)
    receiving_success_rate :=
      if cc = 0 then none else some ((successSum cg : ℚ) / cc * 100)
    total_plays := pc + rc + cc
    total_epa :=
      if pc + rc + cc = 0 then none else some (epaSum pg + epaSum rg + epaSum cg)
    success_rate :=
      if pc + rc + cc = 0 then none
      else some (((successSum pg + successSum rg + successSum cg : ℕ) : ℚ) /
        ((pc + rc + cc : ℕ) : ℚ) * 100) }

/-- The `(pfr_id, week)` keys of the merged dataframe: every pair appearing
in at least one of the three role groupings (outer join). -/
def mergedKeys (pbp : List Play) : List (String × Int) :=
  ((pbp.filterMap (fun pb =>
      if pb.pass_attempt then
        pb.passer_player_id.bind (fun i => pb.week.map (fun w => (i, w)))
      else none)) ++
   (pbp.filterMap (fun pb =>
      if pb.rush_attempt then
        pb.rusher_player_id.bind (fun i => pb.week.map (fun w => (i, w)))
      else none)) ++
   (pbp.filterMap (fun pb =>
      if pb.pass_attempt then
        pb.receiver_player_id.bind (fun i => pb.week.map (fun w => (i, w)))
      else none))).dedup

/-- The `players_by_pfr` lookup: internal player id for a provider id. -/
def pfrToPlayerId (players : List Player) (pfr : String) : Option Int :=
  (players.find? (fun p => p.pfr_id == some pfr)).map (·.id)

/-- The set of `(playerId, week)` pairs with an existing weekly GameStat row
for the season (the `player_week_set` fetch: `week IS NOT NULL` and the
player has a `pfr_id`). -/
def playerWeekSet (tbl : List GameStat) (players : List Player) (year : Int) :
    List (Int × Int) :=
  (tbl.filterMap (fun r =>
    match r.week with
    | some w =>
      if decide (r.season = year) &&
          players.any (fun p => decide (p.id = r.playerId) && p.pfr_id.isSome) then
        some (r.playerId, w)
      else none
    | none => none)).dedup

/-- One update record sent to the batched `UPDATE "GameStat" SET ...`. -/
structure EpaUpdate where
  player_id : Int
  week : Int
  passing_epa : Option ℚ
  passing_epa_per_play : Option ℚ
  passing_success_rate : Option ℚ
  rushing_epa : Option ℚ
  rushing_epa_per_play : Option ℚ
  rushing_success_rate : Option ℚ
  receiving_epa : Option ℚ
  receiving_epa_per_play : Option ℚ
  receiving_success_rate : Option ℚ
  epa : Option ℚ
  success_rate : Option ℚ
deriving DecidableEq

/-- The update list: one record per merged `(pfr_id, week)` key whose player
exists in the Player lookup and whose `(playerId, week)` pair has an existing
weekly GameStat row for the season. -/
def weekly_epa_updates (pbp : List Play) (players : List Player)
    (tbl : List GameStat) (year : Int) : List EpaUpdate :=
  (mergedKeys pbp).filterMap (fun kw =>
    match pfrToPlayerId players kw.1 with
    | none => none
    | some pid =>
      if (pid, kw.2) ∈ playerWeekSet tbl players year then
        let m := weeklyMetrics pbp kw.1 kw.2
        some { player_id := pid, week := kw.2
               passing_epa := m.passing_epa
               passing_epa_per_play := m.passing_epa_per_play
               passing_success_rate := m.passing_success_rate
               rushing_epa := m.rushing_epa
               rushing_epa_per_play := m.rushing_epa_per_play
               rushing_success_rate := m.rushing_success_rate
               receiving_epa := m.receiving_epa
               receiving_epa_per_play := m.receiving_epa_per_play
               receiving_success_rate := m.receiving_success_rate
               epa := m.total_epa
               success_rate := m.success_rate }
      else none)

/-- The SQL `UPDATE` applied to one GameStat row: when an update record
matches `playerId`, `season` and `week`, the eleven efficiency columns are
replaced; nothing else changes and non-matching rows are untouched. -/
def applyEpaUpdate (year : Int) (us : List EpaUpdate) (r : GameStat) : GameStat :=
  match us.find? (fun u =>
    decide (r.playerId = u.player_id) && decide (r.season = year) &&
      (r.week == some u.week)) with
  | none => r
  | some u =>
    { r with
      passing_epa := u.passing_epa
      passing_epa_per_play := u.passing_epa_per_play
      passing_success_rate := u.passing_success_rate
      rushing_epa := u.rushing_epa
      rushing_epa_per_play := u.rushing_epa_per_play
      rushing_success_rate := u.rushing_success_rate
      receiving_epa := u.receiving_epa
      receiving_epa_per_play := u.receiving_epa_per_play
      receiving_success_rate := u.receiving_success_rate
      epa := u.epa
      success_rate := u.success_rate }

/-- The whole weekly EPA stage on the GameStat table. -/
def calculate_weekly_epa (tbl : List GameStat) (players : List Player)
    (pbp : List Play) (year : Int) : List GameStat :=
  tbl.map (applyEpaUpdate year (weekly_epa_updates pbp players tbl year))

/-! ### Seasonal AdvancedMetrics rows and the historical aggregation path
(`populate_historical_advanced_metrics.py`) -/

/-- One row of the `"AdvancedMetrics"` table. -/
structure AdvancedMetricsRow where
  playerId : Int
  season : Int
  epa : Option ℚ
  epa_per_play : Option ℚ
  passing_epa : Option ℚ
  passing_epa_per_play : Option ℚ
  passing_success_rate : Option ℚ
  rushing_epa : Option ℚ
  rushing_epa_per_play : Option ℚ
  rushing_success_rate : Option ℚ
  receiving_epa : Option ℚ
  receiving_epa_per_play : Option ℚ
  receiving_success_rate : Option ℚ
  success_rate : Option ℚ
  cpoe : Option ℚ
deriving DecidableEq

/-- SQL `SUM` over a nullable column: `NULL` when there is no non-null value,
otherwise the sum of the non-null values. -/
def sqlSumOpt (l : List (Option ℚ)) : Option ℚ :=
  if (l.filterMap id).isEmpty then none else some (l.filterMap id).sum

/-- SQL `AVG` over a nullable column: `NULL` when there is no non-null value,
otherwise the mean of the non-null values. -/
def sqlAvgOpt (l : List (Option ℚ)) : Option ℚ :=
  let v := l.filterMap id
  if v.isEmpty then none else some (v.sum / v.length)

/-- The weekly GameStat rows of one player for one season (`week IS NOT
NULL`), i.e. one group of the historical aggregation query. -/
def histGroupRows (tbl : List GameStat) (season : Int) (pid : Int) :
    List GameStat :=
  tbl.filter (fun r =>
    decide (r.playerId = pid) && decide (r.season = season) && r.week.isSome)

/-- The python `1 if epa is not None and epa != 0 else 0` play counter. -/
def epaPlayFlag (e : Option ℚ) : ℕ :=
  match e with
  | some v => if v = 0 then 0 else 1
  | none => 0

/-- The python `total_plays` of the historical path: the number of roles
whose summed weekly EPA is non-null and nonzero. -/
def histTotalPlays (rows : List GameStat) : ℕ :=
  epaPlayFlag (sqlSumOpt (rows.map (·.passing_epa))) +
    epaPlayFlag (sqlSumOpt (rows.map (·.rushing_epa))) +
    epaPlayFlag (sqlSumOpt (rows.map (·.receiving_epa)))

/-- The record the historical path builds for one player from their weekly
rows: sums of EPA, averages of per-play/rate fields, a role EPA kept only
when non-null and nonzero (`passing_epa if passing_epa != 0 else None`). -/
def histRecordOf (rows : List GameStat) (season : Int) (pid : Int) :
    AdvancedMetricsRow :=
  let passingE := sqlSumOpt (rows.map (·.passing_epa))
  let rushingE := sqlSumOpt (rows.map (·.rushing_epa))
  let receivingE := sqlSumOpt (rows.map (·.receiving_epa))
  let totalE := sqlSumOpt (rows.map (·.epa))
  { playerId := pid
    season := season
    epa := totalE
    epa_per_play := totalE.map (fun t => t / (histTotalPlays rows : ℚ))
    passing_epa :=
      match passingE with
      | some v => if v = 0 then none else some v
      | none => none
    passing_epa_per_play := sqlAvgOpt (rows.map (·.passing_epa_per_play))
    passing_success_rate := sqlAvgOpt (rows.map (·.passing_success_rate))
    rushing_epa :=
      match rushingE with
      | some v => if v = 0 then none else some v
      | none => none
    rushing_epa_per_play := sqlAvgOpt (rows.map (·.rushing_epa_per_play))
    rushing_success_rate := sqlAvgOpt (rows.map (·.rushing_success_rate))
    receiving_epa :=
      match receivingE with
      | some v => if v = 0 then none else some v
      | none => none
    receiving_epa_per_play := sqlAvgOpt (rows.map (·.receiving_epa_per_play))
    receiving_success_rate := sqlAvgOpt (rows.map (·.receiving_success_rate))
    success_rate := sqlAvgOpt (rows.map (·.success_rate))
    cpoe := sqlAvgOpt (rows.map (·.cpoe)) }

/-- The historical-path AdvancedMetrics record of one player: aggregate the
stored weekly GameStat rows, skipping the player (`continue`) when there is
no group or when every role EPA is null-or-zero (`total_plays == 0`). -/
def populate_historical_record (tbl : List GameStat) (season : Int)
    (pid : Int) : Option AdvancedMetricsRow :=
  let rows := histGroupRows tbl season pid
  if rows.isEmpty then none
  else if histTotalPlays rows = 0 then none
  else some (histRecordOf rows season pid)

/-- Distinct players with weekly GameStat rows in the season (the `GROUP BY
"playerId"` of the historical aggregation query). -/
def gsSeasonPlayers (tbl : List GameStat) (season : Int) : List Int :=
  ((tbl.filter (fun r => decide (r.season = season) && r.week.isSome)).map
    (·.playerId)).dedup

/-- All historical-path AdvancedMetrics records of a season. -/
def populate_historical_metrics (tbl : List GameStat) (season : Int) :
    List AdvancedMetricsRow :=
  (gsSeasonPlayers tbl season).filterMap (populate_historical_record tbl season)

/-! ### Reconciliation Checker (the verification query of
`calculate_weekly_epa.py`) -/

/-- The weekly rows of one player feeding the verification query. -/
def playerWeeklyRows (tbl : List GameStat) (year : Int) (pid : Int) :
    List GameStat :=
  tbl.filter (fun r =>
    decide (r.playerId = pid) && decide (r.season = year) && r.week.isSome)

/-- The `HAVING` condition: the seasonal rushing or receiving EPA differs
from the summed weekly value by more than `0.1` (both sides coalesced to 0). -/
def epaMismatch (tbl : List GameStat) (year : Int) (am : AdvancedMetricsRow) :
    Bool :=
  let rows := playerWeeklyRows tbl year am.playerId
  let rushSum := sqlSumOpt (rows.map (·.rushing_epa))
  let recvSum := sqlSumOpt (rows.map (·.receiving_epa))
  decide ((1/10 : ℚ) < |am.rushing_epa.getD 0 - rushSum.getD 0|) ||
    decide ((1/10 : ℚ) < |am.receiving_epa.getD 0 - recvSum.getD 0|)

/-- All players violating the reconciliation tolerance: AdvancedMetrics rows
of the season whose player has at least one weekly GameStat row and whose
summed weekly rushing or receiving EPA is off by more than `0.1`. -/
def epa_mismatch_players (tbl : List GameStat) (ams : List AdvancedMetricsRow)
    (year : Int) : List AdvancedMetricsRow :=
  ams.filter (fun am =>
    decide (am.season = year) && !(playerWeeklyRows tbl year am.playerId).isEmpty &&
      epaMismatch tbl year am)

/-- The verification query as written: the mismatching players, truncated by
`LIMIT 5`. -/
def epa_verification (tbl : List GameStat) (ams : List AdvancedMetricsRow)
    (year : Int) : List AdvancedMetricsRow :=
  (epa_mismatch_players tbl ams year).take 5

/-! ### Current-season AdvancedMetrics path (`populate_2025_all_positions.py`)

The script's per-player EPA accumulation is embedded with its actual control
flow: the rushing loop, the receiving loop and the finalization loop are all
nested inside the body of the passer loop (they run once per qualifying
passer), and the passing-stat accumulation sits inside the
`if key not in player_epa` block (it runs only when the key is first
created by the passer loop itself). -/

/-- The in-memory accumulator dict value for one player. -/
structure EpaAcc where
  passing_epa : ℚ
  rushing_epa : ℚ
  receiving_epa : ℚ
  passing_count : ℕ
  rushing_count : ℕ
  receiving_count : ℕ
  passing_success : ℕ
  rushing_success : ℕ
  receiving_success : ℕ
  cpoe_sum : ℚ
  cpoe_count : ℕ
deriving DecidableEq

/-- A freshly initialised accumulator (all zeros). -/
def initAcc : EpaAcc :=
  { passing_epa := 0, rushing_epa := 0, receiving_epa := 0
    passing_count := 0, rushing_count := 0, receiving_count := 0
    passing_success := 0, rushing_success := 0, receiving_success := 0
    cpoe_sum := 0, cpoe_count := 0 }

/-- Dict lookup on the association-list model of `player_epa`. -/
def accFind (m : List (String × EpaAcc)) (k : String) : Option EpaAcc :=
  (m.find? (fun e => decide (e.1 = k))).map (·.2)

/-- Dict write: replace the value when the key exists, append otherwise. -/
def accSet (m : List (String × EpaAcc)) (k : String) (v : EpaAcc) :
    List (String × EpaAcc) :=
  if m.any (fun e => decide (e.1 = k)) then
    m.map (fun e => if e.1 = k then (k, v) else e)
  else m ++ [(k, v)]

/-- The pandas group of passing plays for one passer id
(`passer_player_id` non-null and equal, `pass_attempt == True`). -/
def passingGroup (pbp : List Play) (i : String) : List Play :=
  pbp.filter (fun pb => (pb.passer_player_id == some i) && pb.pass_attempt)

/-- The group of rushing plays for one rusher id. -/
def rushingGroup (pbp : List Play) (i : String) : List Play :=
  pbp.filter (fun pb => (pb.rusher_player_id == some i) && pb.rush_attempt)

/-- The group of receiving plays for one receiver id
(receiver non-null, `pass_attempt == True`). -/
def receivingGroup (pbp : List Play) (i : String) : List Play :=
  pbp.filter (fun pb => (pb.receiver_player_id == some i) && pb.pass_attempt)

/-- The distinct group keys of the passing grouping.  (pandas iterates groups
in sorted key order; the model iterates in first-occurrence order, which none
of the proved facts depend on.) -/
def passerIds (pbp : List Play) : List String :=
  ((pbp.filter (fun pb => pb.passer_player_id.isSome && pb.pass_attempt)).filterMap
    (·.passer_player_id)).dedup

/-- The distinct group keys of the rushing grouping. -/
def rusherIds (pbp : List Play) : List String :=
  ((pbp.filter (fun pb => pb.rusher_player_id.isSome && pb.rush_attempt)).filterMap
    (·.rusher_player_id)).dedup

/-- The distinct group keys of the receiving grouping. -/
def receiverIds (pbp : List Play) : List String :=
  ((pbp.filter (fun pb => pb.receiver_player_id.isSome && pb.pass_attempt)).filterMap
    (·.receiver_player_id)).dedup

/-- The rushing loop (`# 2. RUSHING EPA`): for each rusher known to the
player lookup, ensure an accumulator exists, then add the group's EPA sum,
size and success sum — the addition is outside the `if key not in player_epa`
block, so it re-accumulates every time the loop runs. -/
def addRushingLoop (players_by_pfr : List String) (pbp : List Play)
    (m : List (String × EpaAcc)) : List (String × EpaAcc) :=
  (rusherIds pbp).foldl (fun m i =>
    if players_by_pfr.contains i then
      let g := rushingGroup pbp i
      let acc := (accFind m i).getD initAcc
      accSet m i
        { acc with
          rushing_epa := acc.rushing_epa + epaSum g
          rushing_count := acc.rushing_count + g.length
          rushing_success := acc.rushing_success + successSum g }
    else m) m

/-- The receiving loop (`# 3. RECEIVING EPA`), same shape as the rushing
loop. -/
def addReceivingLoop (players_by_pfr : List String) (pbp : List Play)
    (m : List (String × EpaAcc)) : List (String × EpaAcc) :=
  (receiverIds pbp).foldl (fun m i =>
    if players_by_pfr.contains i then
      let g := receivingGroup pbp i
      let acc := (accFind m i).getD initAcc
      accSet m i
        { acc with
          receiving_epa := acc.receiving_epa + epaSum g
          receiving_count := acc.receiving_count + g.length
          receiving_success := acc.receiving_success + successSum g }
    else m) m

/-- The full accumulation of `populate_2025_all_positions`: the passer loop,
whose body (for each passer known to the lookup) adds passing stats only when
the key is newly created, then runs the complete rushing and receiving loops
(they are indented inside the passer loop in the script). -/
def populate2025_epa (players_by_pfr : List String) (pbp : List Play) :
    List (String × EpaAcc) :=
  (passerIds pbp).foldl (fun m i =>
    if players_by_pfr.contains i then
      let m1 :=
        if (accFind m i).isSome then m
        else
          let g := passingGroup pbp i
          let cp := g.filterMap (·.cpoe)
          accSet m i
            { initAcc with
              passing_epa := epaSum g
              passing_count := g.length
              passing_success := successSum g
              cpoe_sum := cp.sum
              cpoe_count := cp.length }
      addReceivingLoop players_by_pfr pbp
        (addRushingLoop players_by_pfr pbp m1)
    else m) []

/-- The seasonal rushing EPA the current-season path reports for one player:
the accumulated value when the rushing count is positive, `None` otherwise
(finalization lines of the script). -/
def populate2025_rushing_epa (players_by_pfr : List String) (pbp : List Play)
    (i : String) : Option ℚ :=
  match accFind (populate2025_epa players_by_pfr pbp) i with
  | none => none
  | some acc => if acc.rushing_count > 0 then some acc.rushing_epa else none

/-! ### Store operations and the pipeline state (uniqueness invariant)

`INSERT ... ON CONFLICT (key) DO UPDATE` is modelled as a sequential upsert:
replace the row when a row with the same key exists, append otherwise.
`DELETE ... WHERE` is a filter; the `COPY` of season-aggregate GameStat rows
in `load_seasonal_data_fast.py` is an unconditional bulk append guarded by
the script's "year already has season records" skip check. -/

/-- Upsert one row keyed by `key` (`ON CONFLICT DO UPDATE`). -/
def upsertRow {α κ : Type} [DecidableEq κ] (key : α → κ) (tbl : List α)
    (row : α) : List α :=
  if tbl.any (fun r => decide (key r = key row)) then
    tbl.map (fun r => if key r = key row then row else r)
  else tbl ++ [row]

/-- Upsert a batch of rows sequentially. -/
def upsertRows {α κ : Type} [DecidableEq κ] (key : α → κ) (tbl : List α)
    (rows : List α) : List α :=
  rows.foldl (upsertRow key) tbl

/-- Key of a PlayerStats row: `("playerId", season)`. -/
def psKey (r : PlayerStatsRow) : Int × Int := (r.playerId, r.season)

/-- Key of an AdvancedMetrics row: `("playerId", season)`. -/
def amKey (r : AdvancedMetricsRow) : Int × Int := (r.playerId, r.season)

/-- Key of a GameStat row: `("playerId", season, week)` with nullable week. -/
def gsKey (r : GameStat) : Int × Int × Option Int := (r.playerId, r.season, r.week)

/-- The `load_seasonal_data_fast.py` GameStat stage: skip the year entirely
when it already has season-aggregate (`week IS NULL`) rows, otherwise bulk
`COPY` the prepared rows. -/
def load_seasonal_gamestat (tbl : List GameStat) (year : Int)
    (rows : List GameStat) : List GameStat :=
  if 0 < (tbl.filter (fun r => decide (r.season = year) && r.week.isNone)).length
  then tbl
  else tbl ++ rows

/-- The database state the pipeline mutates. -/
structure DB where
  play : List Play
  playerStats : List PlayerStatsRow
  gameStat : List GameStat
  advancedMetrics : List AdvancedMetricsRow

/-- One pipeline stage run, with the provider-supplied inputs as parameters
(stages that re-fetch provider data take it as an argument; stages that read
the stored tables read them from the state). -/
inductive PipelineOp where
  | loadPbp (season : Int) (fetched : List Play)
  | medians (players : List Player) (season : Int)
  | loadSeasonalGS (year : Int) (rows : List GameStat)
  | loadSeasonalPS (rows : List PlayerStatsRow)
  | loadSeasonalAM (rows : List AdvancedMetricsRow)
  | fixWeeks (players : List Player) (year : Int)
  | weeklyEpa (players : List Player) (pbp : List Play) (year : Int)
  | historicalAM (season : Int)
  | currentSeasonAM (rows : List AdvancedMetricsRow)
  | clearSeason (season : Int)

/-- The state transition of one pipeline stage. -/
def stepOp (db : DB) : PipelineOp → DB
  | .loadPbp season fetched =>
    { db with play := (load_pbp_season db.play season fetched).store }
  | .medians players season =>
    { db with
      playerStats := upsertRows psKey db.playerStats
        (players.map (fun p => calculate_medians_row db.play p season)) }
  | .loadSeasonalGS year rows =>
    { db with gameStat := load_seasonal_gamestat db.gameStat year rows }
  | .loadSeasonalPS rows =>
    { db with playerStats := upsertRows psKey db.playerStats rows }
  | .loadSeasonalAM rows =>
    { db with advancedMetrics := upsertRows amKey db.advancedMetrics rows }
  | .fixWeeks players year =>
    { db with gameStat := fix_gamestat_weeks db.gameStat players db.play year }
  | .weeklyEpa players pbp year =>
    { db with gameStat := calculate_weekly_epa db.gameStat players pbp year }
  | .historicalAM season =>
    { db with
      advancedMetrics := upsertRows amKey
        (db.advancedMetrics.filter (fun r => !(decide (r.season = season))))
        (populate_historical_metrics db.gameStat season) }
  | .currentSeasonAM rows =>
    { db with advancedMetrics := upsertRows amKey db.advancedMetrics rows }
  | .clearSeason season =>
    { play := db.play.filter (fun p => !(decide (p.season = season)))
      playerStats := db.playerStats.filter (fun r => !(decide (r.season = season)))
      gameStat := db.gameStat.filter (fun r => !(decide (r.season = season)))
      advancedMetrics :=
        db.advancedMetrics.filter (fun r => !(decide (r.season = season))) }

/-- Run a sequence of pipeline stages. -/
def runOps (db : DB) (ops : List PipelineOp) : DB :=
  ops.foldl stepOp db

/-- Well-formedness of a stage's provider inputs relative to the current
state: bulk-inserted batches carry distinct keys (one seasonal record per
player from the provider; one game date per player-week in the play data). -/
def OpWF (db : DB) : PipelineOp → Prop
  | .loadSeasonalGS year rows =>
    (∀ r ∈ rows, r.season = year ∧ r.week = none) ∧
      (rows.map (·.playerId)).Nodup
  | .fixWeeks players year =>
    ((player_weeks players db.play year).map
      (fun pw => (pw.player_id, pw.week))).Nodup
  | _ => True

/-- Well-formedness of a whole trace, stepwise along the evolving state. -/
def TraceWF (db : DB) : List PipelineOp → Prop
  | [] => True
  | op :: rest => OpWF db op ∧ TraceWF (stepOp db op) rest

/-- The uniqueness invariant of the spec: at most one row per `(player,
season)` in PlayerStats and AdvancedMetrics, at most one per `(player,
season, week)` in GameStat (week-null rows included). -/
def UniqueKeys (db : DB) : Prop :=
  (db.playerStats.map psKey).Nodup ∧ (db.advancedMetrics.map amKey).Nodup ∧
    (db.gameStat.map gsKey).Nodup

/-- A play whose only production is negative rushing yardage. -/
def negRushPlay : Play :=
  { basePlay with
      season := 2025, week := some 1, rusher_player_id := some "R1",
      rush_attempt := true, rushing_yards := some (-3) }

/-- The player appearing in `negRushPlay`. -/
def negRushPlayer : Player := ⟨1, some "R1", "R", "RB"⟩

/-- A play with positive rushing yardage, and its player-week entry. -/
def rushPlay7 : Play :=
  { basePlay with
      season := 2025, week := some 1, rusher_player_id := some "R1",
      rush_attempt := true, rushing_yards := some 7 }

/-- The `player_weeks` entry generated by `rushPlay7`. -/
def rushPw : PlayerWeek := ⟨1, some "R1", 2025, 1, "d"⟩

/-- Boxscore-column equality between two GameStat rows: identity, date and
every counting-stat column owned by the Game-Week Aggregator agree (the CPOE
column included, which the weekly EPA stage does not set). -/
def boxscoreEq (r r2 : GameStat) : Prop :=
  r2.playerId = r.playerId ∧ r2.season = r.season ∧ r2.week = r.week ∧
  r2.gameDate = r.gameDate ∧ r2.games = r.games ∧
  r2.passingYds = r.passingYds ∧ r2.passing_tds = r.passing_tds ∧
  r2.passing_sacks = r.passing_sacks ∧
  r2.passing_interceptions = r.passing_interceptions ∧
  r2.passing_attempts = r.passing_attempts ∧
  r2.passing_completions = r.passing_completions ∧
  r2.rushingYds = r.rushingYds ∧ r2.rushing_attempts = r.rushing_attempts ∧
  r2.rushing_tds = r.rushing_tds ∧ r2.receivingYds = r.receivingYds ∧
  r2.receiving_tds = r.receiving_tds ∧ r2.receptions = r.receptions ∧
  r2.targets = r.targets ∧ r2.cpoe = r.cpoe

/-- A GameStat row with every numeric column zero and every nullable column
null; concrete test rows override the relevant fields. -/
def baseGameStat : GameStat :=
  { playerId := 0, season := 0, week := none, gameDate := "", games := none
    passingYds := 0, passing_tds := 0, passing_sacks := 0
    passing_interceptions := 0, passing_attempts := 0, passing_completions := 0
    rushingYds := 0, rushing_attempts := 0, rushing_tds := 0
    receivingYds := 0, receiving_tds := 0, receptions := 0, targets := 0
    cpoe := none
    passing_epa := none, passing_epa_per_play := none, passing_success_rate := none
    rushing_epa := none, rushing_epa_per_play := none, rushing_success_rate := none
    receiving_epa := none, receiving_epa_per_play := none
    receiving_success_rate := none, epa := none, success_rate := none }

/-- An AdvancedMetrics row with every nullable column null. -/
def baseAM : AdvancedMetricsRow :=
  { playerId := 0, season := 0, epa := none, epa_per_play := none
    passing_epa := none, passing_epa_per_play := none
    passing_success_rate := none
    rushing_epa := none, rushing_epa_per_play := none
    rushing_success_rate := none
    receiving_epa := none, receiving_epa_per_play := none
    receiving_success_rate := none, success_rate := none, cpoe := none }

/-- A spiked, sacked play nevertheless flagged as a pass attempt. -/
def sackedSpikePlay : Play :=
  { basePlay with
      season := 2025, week := some 1, passer_player_id := some "Q1",
      pass_attempt := true, sack := true, play_type := "qb_spike",
      epa := some (-2) }

/-- C7 test data: two qualifying passers and one rusher in week 1. -/
def c7PassA : Play :=
  { basePlay with
      season := 2025, week := some 1, passer_player_id := some "A",
      pass_attempt := true, epa := some (1/2) }

/-- Second passer of the C7 test data. -/
def c7PassB : Play :=
  { basePlay with
      season := 2025, week := some 1, passer_player_id := some "B",
      pass_attempt := true, epa := some (1/2) }

/-- The rusher play of the C7 test data (rushing EPA 1). -/
def c7Rush : Play :=
  { basePlay with
      season := 2025, week := some 1, rusher_player_id := some "R",
      rush_attempt := true, epa := some 1 }

/-- The C7 play-by-play sample. -/
def c7Pbp : List Play := [c7PassA, c7PassB, c7Rush]

/-- The weekly GameStat row holding the weekly EPA computed from the same
plays, as the weekly stage would store it. -/
def c7GsRow : GameStat :=
  { baseGameStat with
      playerId := 3, season := 2025, week := some 1, rushingYds := 5,
      rushing_epa := (weeklyMetrics c7Pbp "R" 1).rushing_epa }

/-- C2 test data: rushing EPA +1 in week 1. -/
def c2RushW1 : Play :=
  { basePlay with
      season := 2024, week := some 1, rusher_player_id := some "R2",
      rush_attempt := true, epa := some 1 }

/-- C2 test data: rushing EPA -1 in week 2. -/
def c2RushW2 : Play :=
  { basePlay with
      season := 2024, week := some 2, rusher_player_id := some "R2",
      rush_attempt := true, epa := some (-1) }

/-- C2 test data: receiving EPA +2 in week 1 (keeps the player in the
historical aggregation). -/
def c2Recv : Play :=
  { basePlay with
      season := 2024, week := some 1, receiver_player_id := some "R2",
      pass_attempt := true, epa := some 2 }

/-- The C2 play-by-play sample. -/
def c2Pbp : List Play := [c2RushW1, c2RushW2, c2Recv]

/-- Week-1 GameStat row of the C2 player, efficiency fields as the weekly
stage computes them from `c2Pbp`. -/
def c2Gs1 : GameStat :=
  { baseGameStat with
      playerId := 5, season := 2024, week := some 1, rushingYds := 4,
      rushing_epa := (weeklyMetrics c2Pbp "R2" 1).rushing_epa,
      receiving_epa := (weeklyMetrics c2Pbp "R2" 1).receiving_epa }

/-- Week-2 GameStat row of the C2 player. -/
def c2Gs2 : GameStat :=
  { baseGameStat with
      playerId := 5, season := 2024, week := some 2, rushingYds := 4,
      rushing_epa := (weeklyMetrics c2Pbp "R2" 2).rushing_epa,
      receiving_epa := (weeklyMetrics c2Pbp "R2" 2).receiving_epa }

/-- C8 test data: a weekly GameStat row for one player (no stored EPA). -/
def c8Gs (pid : Int) : GameStat :=
  { baseGameStat with playerId := pid, season := 2024, week := some 1 }

/-- C8 test data: a seasonal AdvancedMetrics row claiming rushing EPA 10,
which no weekly data backs (mismatch far above the 0.1 tolerance). -/
def c8Am (pid : Int) : AdvancedMetricsRow :=
  { baseAM with playerId := pid, season := 2024, rushing_epa := some 10 }

/-- Six mismatching players' GameStat rows. -/
def c8Tbl : List GameStat :=
  [c8Gs 1, c8Gs 2, c8Gs 3, c8Gs 4, c8Gs 5, c8Gs 6]

/-- Six mismatching players' AdvancedMetrics rows. -/
def c8Ams : List AdvancedMetricsRow :=
  [c8Am 1, c8Am 2, c8Am 3, c8Am 4, c8Am 5, c8Am 6]

section UpsertLemmas

variable {α κ : Type} [DecidableEq κ]

/-- Upserting never introduces a duplicate key. -/
theorem upsertRow_nodup (key : α → κ) (tbl : List α) (row : α)
    (h : (tbl.map key).Nodup) : ((upsertRow key tbl row).map key).Nodup := by
  unfold upsertRow
  by_cases hc : tbl.any (fun r => decide (key r = key row)) = true
  · rw [if_pos hc]
    have hmap : (tbl.map (fun r => if key r = key row then row else r)).map key
        = tbl.map key := by
      rw [List.map_map]
      refine List.map_congr_left ?_
      intro r _
      by_cases hr : key r = key row
      · simp [hr]
      · simp [hr]
    rw [hmap]
    exact h
  · rw [if_neg hc]
    rw [List.map_append]
    simp only [List.map_cons, List.map_nil]
    rw [List.nodup_append]
    refine ⟨h, List.nodup_singleton _, ?_⟩
    intro a ha hb
    simp only [List.mem_singleton] at hb
    subst hb
    simp only [List.any_eq_true, decide_eq_true_eq] at hc
    push_neg at hc
    simp only [List.mem_map] at ha
    obtain ⟨r, hr, hkr⟩ := ha
    exact hc r hr hkr

/-- Batch upserts preserve key uniqueness. -/
theorem upsertRows_nodup (key : α → κ) (tbl : List α) (rows : List α)
    (h : (tbl.map key).Nodup) : ((upsertRows key tbl rows).map key).Nodup := by
  induction rows generalizing tbl with
  | nil => exact h
  | cons r rest ih => exact ih _ (upsertRow_nodup key tbl r h)

omit [DecidableEq κ] in
/-- Deleting rows (a filter) preserves key uniqueness. -/
theorem filter_nodup (key : α → κ) (p : α → Bool) (tbl : List α)
    (h : (tbl.map key).Nodup) : (((tbl.filter p)).map key).Nodup :=
  ((List.filter_sublist tbl).map key).nodup h

end UpsertLemmas

section PipelineLemmas

/-- Every `player_weeks` element carries the processed season. -/
theorem player_weeks_season {players : List Player} {plays : List Play}
    {year : Int} : ∀ pw ∈ player_weeks players plays year, pw.season = year := by
  intro pw hpw
  unfold player_weeks at hpw
  rw [List.mem_dedup, List.mem_flatMap] at hpw
  obtain ⟨p, _, hmem⟩ := hpw
  rw [List.mem_filterMap] at hmem
  obtain ⟨pb, hpb, hsome⟩ := hmem
  rw [List.mem_filter] at hpb
  obtain ⟨_, hcond⟩ := hpb
  simp only [Bool.and_eq_true, decide_eq_true_eq] at hcond
  cases hw : pb.week with
  | none => rw [hw] at hsome; simp at hsome
  | some w =>
    rw [hw] at hsome
    simp only [Option.map_some', Option.some.injEq] at hsome
    subst hsome
    exact hcond.1.2

/-- The key of a recomputed Game-Week row is the `player_weeks` key. -/
theorem gsKey_insert_all_stats_row (plays : List Play) (pw : PlayerWeek) :
    gsKey (insert_all_stats_row plays pw) = (pw.player_id, pw.season, some pw.week) :=
  rfl

/-- The Game-Week rebuild preserves GameStat key-uniqueness, provided the
play data yields at most one `player_weeks` entry per `(player, week)` (one
game date per player-week). -/
theorem fix_gamestat_weeks_nodup (tbl : List GameStat) (players : List Player)
    (plays : List Play) (year : Int)
    (hwf : ((player_weeks players plays year).map
      (fun pw => (pw.player_id, pw.week))).Nodup)
    (h : (tbl.map gsKey).Nodup) :
    ((fix_gamestat_weeks tbl players plays year).map gsKey).Nodup := by
  unfold fix_gamestat_weeks
  rw [List.map_append, List.nodup_append]
  refine ⟨filter_nodup gsKey _ tbl h, ?_, ?_⟩
  · -- inserted keys are distinct
    have hrows : (((player_weeks players plays year).map
        (insert_all_stats_row plays)).map gsKey).Nodup := by
      rw [List.map_map]
      have hcongr : (player_weeks players plays year).map
          (gsKey ∘ insert_all_stats_row plays) =
          ((player_weeks players plays year).map
            (fun pw => (pw.player_id, pw.week))).map
            (fun q => (q.1, year, some q.2)) := by
        rw [List.map_map]
        refine List.map_congr_left ?_
        intro pw hpw
        have hs := player_weeks_season pw hpw
        simp only [Function.comp_apply, gsKey_insert_all_stats_row, hs]
      rw [hcongr]
      refine hwf.map ?_
      intro a b hab
      simp only [Prod.mk.injEq, Option.some.injEq] at hab
      exact Prod.ext hab.1 hab.2.2
    have hsub : ((((player_weeks players plays year).map
        (insert_all_stats_row plays)).filter emitRow).map gsKey).Sublist
        ((((player_weeks players plays year).map
          (insert_all_stats_row plays))).map gsKey) :=
      (List.filter_sublist _).map gsKey
    exact hrows.sublist hsub
  · -- kept keys and inserted keys are disjoint (season component differs)
    intro a ha hb
    rw [List.mem_map] at ha hb
    obtain ⟨r, hr, hra⟩ := ha
    obtain ⟨r', hr', hrb⟩ := hb
    rw [List.mem_filter] at hr
    have hrs : r.season ≠ year := by
      have := hr.2
      simp only [Bool.not_eq_eq_eq_not, Bool.not_true, decide_eq_false_iff_not] at this
      exact this
    rw [List.mem_filter, List.mem_map] at hr'
    obtain ⟨⟨pw, hpw, hpwr⟩, _⟩ := hr'
    have hs' : r'.season = year := by
      rw [← hpwr]
      show (insert_all_stats_row plays pw).season = year
      have := player_weeks_season pw hpw
      simpa [insert_all_stats_row] using this
    apply hrs
    have : (gsKey r).2.1 = (gsKey r').2.1 := by rw [hra, hrb]
    simpa [gsKey, hs'] using this

/-- The weekly EPA update never changes a GameStat row's key. -/
theorem gsKey_applyEpaUpdate (year : Int) (us : List EpaUpdate) (r : GameStat) :
    gsKey (applyEpaUpdate year us r) = gsKey r := by
  unfold applyEpaUpdate
  cases (us.find? (fun u =>
    decide (r.playerId = u.player_id) && decide (r.season = year) &&
      (r.week == some u.week))) with
  | none => rfl
  | some u => rfl

/-- The weekly EPA stage preserves GameStat key-uniqueness (it maps rows in
place). -/
theorem calculate_weekly_epa_nodup (tbl : List GameStat) (players : List Player)
    (pbp : List Play) (year : Int) (h : (tbl.map gsKey).Nodup) :
    ((calculate_weekly_epa tbl players pbp year).map gsKey).Nodup := by
  unfold calculate_weekly_epa
  rw [List.map_map]
  have : tbl.map (gsKey ∘ applyEpaUpdate year (weekly_epa_updates pbp players tbl year))
      = tbl.map gsKey := by
    refine List.map_congr_left ?_
    intro r _
    exact gsKey_applyEpaUpdate year _ r
  rw [this]
  exact h

/-- The guarded seasonal COPY preserves GameStat key-uniqueness when the
batch holds one row per player, all for the loaded year with `week IS NULL`. -/
theorem load_seasonal_gamestat_nodup (tbl : List GameStat) (year : Int)
    (rows : List GameStat) (hrows : ∀ r ∈ rows, r.season = year ∧ r.week = none)
    (hids : (rows.map (·.playerId)).Nodup) (h : (tbl.map gsKey).Nodup) :
    ((load_seasonal_gamestat tbl year rows).map gsKey).Nodup := by
  unfold load_seasonal_gamestat
  by_cases hg : 0 < (tbl.filter (fun r => decide (r.season = year) && r.week.isNone)).length
  · rw [if_pos hg]; exact h
  · rw [if_neg hg]
    rw [List.map_append, List.nodup_append]
    refine ⟨h, ?_, ?_⟩
    · have : rows.map gsKey = (rows.map (·.playerId)).map (fun i => (i, year, none)) := by
        rw [List.map_map]
        refine List.map_congr_left ?_
        intro r hr
        obtain ⟨h1, h2⟩ := hrows r hr
        simp [gsKey, h1, h2, Function.comp]
      rw [this]
      refine hids.map ?_
      intro a b hab
      simpa using hab
    · intro a ha hb
      rw [List.mem_map] at ha hb
      obtain ⟨r, hr, hra⟩ := ha
      obtain ⟨r', hr', hrb⟩ := hb
      obtain ⟨h1, h2⟩ := hrows r' hr'
      have hempty : tbl.filter (fun r => decide (r.season = year) && r.week.isNone) = [] := by
        cases hfe : tbl.filter (fun r => decide (r.season = year) && r.week.isNone) with
        | nil => rfl
        | cons x xs => rw [hfe] at hg; simp at hg
      have hrsat : r.season = year ∧ r.week = none := by
        have hk : gsKey r = gsKey r' := by rw [hra, hrb]
        simp only [gsKey, Prod.mk.injEq] at hk
        exact ⟨hk.2.1.trans h1, hk.2.2.trans h2⟩
      have : r ∈ tbl.filter (fun r => decide (r.season = year) && r.week.isNone) := by
        rw [List.mem_filter]
        exact ⟨hr, by simp [hrsat.1, hrsat.2]⟩
      rw [hempty] at this
      exact absurd this (List.not_mem_nil r)

/-- Every single pipeline stage preserves the uniqueness invariant. -/
theorem stepOp_unique (db : DB) (op : PipelineOp) (hwf : OpWF db op)
    (h : UniqueKeys db) : UniqueKeys (stepOp db op) := by
  obtain ⟨hps, ham, hgs⟩ := h
  cases op with
  | loadPbp season fetched => exact ⟨hps, ham, hgs⟩
  | medians players season => exact ⟨upsertRows_nodup psKey _ _ hps, ham, hgs⟩
  | loadSeasonalGS year rows =>
    exact ⟨hps, ham, load_seasonal_gamestat_nodup _ _ _ hwf.1 hwf.2 hgs⟩
  | loadSeasonalPS rows => exact ⟨upsertRows_nodup psKey _ _ hps, ham, hgs⟩
  | loadSeasonalAM rows => exact ⟨hps, upsertRows_nodup amKey _ _ ham, hgs⟩
  | fixWeeks players year =>
    exact ⟨hps, ham, fix_gamestat_weeks_nodup _ _ _ _ hwf hgs⟩
  | weeklyEpa players pbp year =>
    exact ⟨hps, ham, calculate_weekly_epa_nodup _ _ _ _ hgs⟩
  | historicalAM season =>
    exact ⟨hps, upsertRows_nodup amKey _ _ (filter_nodup amKey _ _ ham), hgs⟩
  | currentSeasonAM rows => exact ⟨hps, upsertRows_nodup amKey _ _ ham, hgs⟩
  | clearSeason season =>
    exact ⟨filter_nodup psKey _ _ hps, filter_nodup amKey _ _ ham,
      filter_nodup gsKey _ _ hgs⟩

end PipelineLemmas

section MedianLemmas

/-- `percentile_cont(0.5)` on a sorted list is exactly the spec's median:
the middle element for odd length, the average of the two middle elements for
even length. -/
theorem percentileCont_half_eq (s : List ℚ) :
    percentileCont (1/2) s = medianOfSorted s := by
  unfold medianOfSorted
  rcases eq_or_ne s [] with rfl | hs
  · simp [percentileCont]
  · have hne : s.isEmpty = false := by simpa using hs
    have hlen : 0 < s.length := List.length_pos.mpr hs
    rcases Nat.even_or_odd s.length with ⟨m, hm⟩ | ⟨m, hm⟩
    · -- even length
      obtain ⟨j, rfl⟩ : ∃ j, m = j + 1 := ⟨m - 1, by omega⟩
      have hlen2 : s.length = 2 * j + 2 := by omega
      have hposval : (1/2 : ℚ) * ((s.length : ℚ) - 1) = (j : ℚ) + 1/2 := by
        have hc : (s.length : ℚ) = 2 * (j : ℚ) + 2 := by
          rw [hlen2]; push_cast; ring
        rw [hc]; ring
      have hfloor : ⌊(1/2 : ℚ) * ((s.length : ℚ) - 1)⌋ = (j : ℤ) := by
        rw [hposval, Int.floor_eq_iff]
        constructor
        · push_cast; linarith
        · push_cast; linarith
      have hidx1 : j < s.length := by omega
      have hidx2 : j + 1 < s.length := by omega
      simp only [percentileCont, hne, Bool.false_eq_true, if_false, hfloor,
        Int.toNat_natCast]
      rw [List.getElem?_eq_getElem hidx1, List.getElem?_eq_getElem hidx2]
      rw [if_neg (by omega : ¬ s.length = 0),
        if_neg (by omega : ¬ s.length % 2 = 1)]
      have hd1 : s.length / 2 - 1 = j := by omega
      have hd2 : s.length / 2 = j + 1 := by omega
      rw [hd1, hd2, List.getElem?_eq_getElem hidx1, List.getElem?_eq_getElem hidx2]
      show some _ = some _
      rw [hposval]
      push_cast
      congr 1
      ring
    · -- odd length
      have hposval : (1/2 : ℚ) * ((s.length : ℚ) - 1) = (m : ℚ) := by
        have hc : (s.length : ℚ) = 2 * (m : ℚ) + 1 := by
          rw [hm]; push_cast; ring
        rw [hc]; ring
      have hfloor : ⌊(1/2 : ℚ) * ((s.length : ℚ) - 1)⌋ = (m : ℤ) := by
        rw [hposval]
        exact Int.floor_natCast m
      have hidx : m < s.length := by omega
      simp only [percentileCont, hne, Bool.false_eq_true, if_false, hfloor,
        Int.toNat_natCast]
      rw [List.getElem?_eq_getElem hidx]
      rw [if_neg (by omega : ¬ s.length = 0), if_pos (by omega : s.length % 2 = 1)]
      have hd : s.length / 2 = m := by omega
      rw [hd]
      have hfrac : (1/2 : ℚ) * ((s.length : ℚ) - 1) - ((m : ℤ) : ℚ) = 0 := by
        rw [hposval]; push_cast; ring
      rcases h2 : s[m + 1]? with _ | b
      · rw [List.getElem?_eq_getElem hidx]
      · rw [List.getElem?_eq_getElem hidx]
        show some _ = some _
        rw [hposval]
        push_cast
        congr 1
        ring

end MedianLemmas

/-- A median/average field of the aggregator row equals the spec-side
linear-interpolation median of the same vector. -/
theorem median_field_eq (v : List ℚ) :
    (if v.isEmpty then none else percentileCont (1/2) (sortQ v)) =
      medianLinearInterp v := by
  by_cases hv : v.isEmpty = true
  · have hnil : v = [] := by simpa using hv
    subst hnil
    rfl
  · rw [if_neg hv]
    exact percentileCont_half_eq (sortQ v)

/-! ## Claim theorems -/

/-- **C1.** For every player and season, each role's stored median is exactly
the linear-interpolation (50th-percentile continuous) median of the
qualifying yardage vector, null when the player has no qualifying play in
the role; on the spec's example vectors the median is 4.0 for [2, 4, 4, 6]
(average of the two middle values) and 5.0 for [3, 5, 9]. -/
theorem medians_aggregator_linear_interpolation :
    (∀ (plays : List Play) (p : Player) (season : Int),
      ((calculate_medians_row plays p season).median_yards_per_pass_attempt =
          medianLinearInterp (pass_vec plays p season) ∧
        (pass_vec plays p season = [] →
          (calculate_medians_row plays p season).median_yards_per_pass_attempt
            = none)) ∧
      ((calculate_medians_row plays p season).median_yards_per_rushing_attempt =
          medianLinearInterp (rush_vec plays p season) ∧
        (rush_vec plays p season = [] →
          (calculate_medians_row plays p season).median_yards_per_rushing_attempt
            = none)) ∧
      ((calculate_medians_row plays p season).median_yards_per_reception =
          medianLinearInterp (recv_vec plays p season) ∧
        (recv_vec plays p season = [] →
          (calculate_medians_row plays p season).median_yards_per_reception
            = none))) ∧
    medianLinearInterp [2, 4, 4, 6] = some 4 ∧
    medianLinearInterp [3, 5, 9] = some 5 := by
  refine ⟨?_, ?_, ?_⟩
  · intro plays p season
    refine ⟨⟨median_field_eq _, ?_⟩, ⟨median_field_eq _, ?_⟩,
      ⟨median_field_eq _, ?_⟩⟩ <;>
      (intro h; simp [calculate_medians_row, h])
  · norm_num [medianLinearInterp, medianOfSorted, sortQ, List.insertionSort,
      List.orderedInsert]
  · norm_num [medianLinearInterp, medianOfSorted, sortQ, List.insertionSort,
      List.orderedInsert]

/-- **C9.** After any sequence of pipeline stage runs (repeated re-runs for
the same season included), at most one row exists per (player, season) in
PlayerStats and in AdvancedMetrics and per (player, season, week) in
GameStat — the week-null season-aggregate rows included — provided each
bulk-inserting stage's provider input is well-formed (`TraceWF`). -/
theorem pipeline_unique_keys (db : DB) (ops : List PipelineOp)
    (hdb : UniqueKeys db) (hwf : TraceWF db ops) :
    UniqueKeys (runOps db ops) := by
  induction ops generalizing db with
  | nil => exact hdb
  | cons op rest ih =>
    exact ih (stepOp db op) (stepOp_unique db op hwf.1 hdb) hwf.2

/-- Witness for C9: a concrete trace — ingest plays, rebuild the game-week
rows, then the historical AdvancedMetrics aggregation — on an empty store. -/
theorem pipeline_unique_keys_witness :
    UniqueKeys (runOps ⟨[], [], [], []⟩
      [PipelineOp.loadPbp 2025
        [{ basePlay with
            season := 2025, week := some 1,
            rusher_player_id := some "R1", rush_attempt := true,
            rushing_yards := some 7 }],
       PipelineOp.fixWeeks [⟨3, some "R1", "R", "RB"⟩] 2025,
       PipelineOp.historicalAM 2025]) :=
  pipeline_unique_keys _ _
    ⟨List.nodup_nil, List.nodup_nil, List.nodup_nil⟩
    ⟨trivial, by simp only [OpWF]; decide, trivial, trivial⟩

/-- **C3.** The Play Ingestor appends exactly the fetched regular-season
plays whose `(game_id, play_id)` string key is not already stored for the
season, never touching existing rows; in particular, re-ingesting a season
whose plays are all already present inserts zero rows and returns the store
unchanged. -/
theorem play_ingestor_duplicate_suppression (store : List Play) (season : Int)
    (fetched : List Play) :
    (∃ tail, (load_pbp_season store season fetched).store = store ++ tail ∧
      (load_pbp_season store season fetched).inserted = tail.length ∧
      ∀ q ∈ tail, q ∈ fetched ∧ q.season_type = "REG" ∧
        playKey q ∉ existingKeys store season) ∧
    ((∀ p ∈ fetched, p.season_type = "REG" →
        playKey p ∈ existingKeys store season) →
      (load_pbp_season store season fetched).inserted = 0 ∧
        (load_pbp_season store season fetched).store = store) := by
  constructor
  · refine ⟨_, rfl, rfl, ?_⟩
    intro q hq
    rw [List.mem_filter] at hq
    obtain ⟨hq1, hq2⟩ := hq
    rw [List.mem_filter] at hq1
    refine ⟨hq1.1, by simpa using hq1.2, ?_⟩
    intro hmem
    rw [Bool.not_eq_eq_eq_not, Bool.not_true] at hq2
    have h2 : List.elem (playKey q) (existingKeys store season) = false := hq2
    rw [List.elem_iff.mpr hmem] at h2
    exact absurd h2 (by decide)
  · intro h
    have hnil : (fetched.filter (fun p => p.season_type == "REG")).filter
        (fun p => !((existingKeys store season).contains (playKey p))) = [] := by
      rw [List.filter_eq_nil_iff]
      intro p hp
      rw [List.mem_filter] at hp
      have hreg : p.season_type = "REG" := by simpa using hp.2
      have hmem := h p hp.1 hreg
      have h2 : (existingKeys store season).contains (playKey p) = true :=
        List.elem_iff.mpr hmem
      simpa using hmem
    constructor
    · show ((fetched.filter _).filter _).length = 0
      rw [hnil]
      rfl
    · show store ++ (fetched.filter _).filter _ = store
      rw [hnil, List.append_nil]

/-- Witness for C3: a store already holding the single fetched play; the
re-ingest inserts nothing and leaves the store unchanged. -/
theorem play_ingestor_duplicate_suppression_witness :
    (load_pbp_season
      [{ basePlay with game_id := "g1", play_id := "7", season := 2024 }]
      2024
      [{ basePlay with game_id := "g1", play_id := "7", season := 2024 }]).inserted
        = 0 ∧
    (load_pbp_season
      [{ basePlay with game_id := "g1", play_id := "7", season := 2024 }]
      2024
      [{ basePlay with game_id := "g1", play_id := "7", season := 2024 }]).store =
      [{ basePlay with game_id := "g1", play_id := "7", season := 2024 }] :=
  (play_ingestor_duplicate_suppression _ _ _).2 (by decide)



/-- **C4 (counterexample).** The Game-Week Aggregator does not emit on
"nonzero": for a player whose only week total is `-3` rushing yards (nonzero),
the recomputed aggregate row carries `rushingYds = -3`, yet the rebuild emits
no row at all for the season — the `WHERE` clause tests `> 0`, not `≠ 0`. -/
theorem gamestat_emit_nonzero_counterexample :
    ((player_weeks [negRushPlayer] [negRushPlay] 2025).map
      (insert_all_stats_row [negRushPlay])).map (·.rushingYds) = [-3] ∧
    fix_gamestat_weeks [] [negRushPlayer] [negRushPlay] 2025 = [] := by
  constructor
  · decide
  · decide

/-- **C4 (amended).** The Game-Week Aggregator first drops every GameStat
row of the season and recomputes from plays (rows of other seasons are kept
verbatim), and a recomputed row is emitted if and only if at least one of
its passing, rushing or receiving yardage totals is strictly positive. -/
theorem gamestat_rebuild_emit_positive (tbl : List GameStat)
    (players : List Player) (plays : List Play) (year : Int) :
    (∀ r ∈ tbl, r.season ≠ year →
      r ∈ fix_gamestat_weeks tbl players plays year) ∧
    (∀ r ∈ fix_gamestat_weeks tbl players plays year,
      (r ∈ tbl ∧ r.season ≠ year) ∨
      ((∃ pw ∈ player_weeks players plays year,
          r = insert_all_stats_row plays pw) ∧
        (0 < r.passingYds ∨ 0 < r.rushingYds ∨ 0 < r.receivingYds))) ∧
    (∀ pw ∈ player_weeks players plays year,
      (insert_all_stats_row plays pw ∈
        ((player_weeks players plays year).map
          (insert_all_stats_row plays)).filter emitRow ↔
       (0 < (insert_all_stats_row plays pw).passingYds ∨
        0 < (insert_all_stats_row plays pw).rushingYds ∨
        0 < (insert_all_stats_row plays pw).receivingYds))) := by
  refine ⟨?_, ?_, ?_⟩
  · intro r hr hne
    unfold fix_gamestat_weeks
    rw [List.mem_append]
    left
    rw [List.mem_filter]
    exact ⟨hr, by simpa using hne⟩
  · intro r hr
    unfold fix_gamestat_weeks at hr
    rw [List.mem_append] at hr
    rcases hr with hk | he
    · rw [List.mem_filter] at hk
      exact Or.inl ⟨hk.1, by simpa using hk.2⟩
    · rw [List.mem_filter] at he
      obtain ⟨hmem, hemit⟩ := he
      rw [List.mem_map] at hmem
      obtain ⟨pw, hpw, hrow⟩ := hmem
      refine Or.inr ⟨⟨pw, hpw, hrow.symm⟩, ?_⟩
      rcases (by simpa [emitRow] using hemit :
          (0 < r.passingYds ∨ 0 < r.rushingYds) ∨ 0 < r.receivingYds) with
        (h | h) | h
      · exact Or.inl h
      · exact Or.inr (Or.inl h)
      · exact Or.inr (Or.inr h)
  · intro pw hpw
    constructor
    · intro hmem
      rw [List.mem_filter] at hmem
      rcases (by simpa [emitRow] using hmem.2 :
          (0 < (insert_all_stats_row plays pw).passingYds ∨
            0 < (insert_all_stats_row plays pw).rushingYds) ∨
            0 < (insert_all_stats_row plays pw).receivingYds) with
        (h | h) | h
      · exact Or.inl h
      · exact Or.inr (Or.inl h)
      · exact Or.inr (Or.inr h)
    · intro hpos
      rw [List.mem_filter]
      refine ⟨List.mem_map_of_mem _ hpw, ?_⟩
      simp only [emitRow, Bool.or_eq_true, decide_eq_true_eq]
      rcases hpos with h | h | h
      · exact Or.inl (Or.inl h)
      · exact Or.inl (Or.inr h)
      · exact Or.inr h



/-- Witness for the amended C4: the positive-yardage row is emitted. -/
theorem gamestat_rebuild_emit_positive_witness :
    insert_all_stats_row [rushPlay7] rushPw ∈
      ((player_weeks [negRushPlayer] [rushPlay7] 2025).map
        (insert_all_stats_row [rushPlay7])).filter emitRow :=
  ((gamestat_rebuild_emit_positive [] [negRushPlayer] [rushPlay7] 2025).2.2
    rushPw (by decide)).mpr (by decide)

/-- Every emitted weekly-EPA update record targets a `(player, week)` pair
that already has a weekly GameStat row for the season. -/
theorem weekly_epa_updates_target (pbp : List Play) (players : List Player)
    (tbl : List GameStat) (year : Int) :
    ∀ u ∈ weekly_epa_updates pbp players tbl year,
      (u.player_id, u.week) ∈ playerWeekSet tbl players year := by
  intro u hu
  unfold weekly_epa_updates at hu
  rw [List.mem_filterMap] at hu
  obtain ⟨kw, _, hk⟩ := hu
  revert hk
  cases hp : pfrToPlayerId players kw.1 with
  | none => intro hk; exact absurd hk (by simp)
  | some pid =>
    intro hk
    simp only [] at hk
    by_cases hmem : (pid, kw.2) ∈ playerWeekSet tbl players year
    · rw [if_pos hmem] at hk
      simp only [Option.some.injEq] at hk
      subst hk
      exact hmem
    · rw [if_neg hmem] at hk
      exact absurd hk (by simp)

/-- **C5.** The weekly EPA stage never creates (or deletes) a GameStat row
and never touches a boxscore column: the table keeps its length, every row
keeps all identity/boxscore/CPOE columns, and a row is rewritten (in its
efficiency columns only) only when its `(player, week)` pair was already
present for the season — every other row is returned entirely unchanged. -/
theorem weekly_epa_frame (tbl : List GameStat) (players : List Player)
    (pbp : List Play) (year : Int) :
    (calculate_weekly_epa tbl players pbp year).length = tbl.length ∧
    List.Forall₂ (fun r r2 => boxscoreEq r r2 ∧
      ((r.season = year ∧ ∃ w, r.week = some w ∧
          (r.playerId, w) ∈ playerWeekSet tbl players year) ∨ r2 = r))
      tbl (calculate_weekly_epa tbl players pbp year) := by
  constructor
  · unfold calculate_weekly_epa
    exact List.length_map _ _
  · unfold calculate_weekly_epa
    rw [List.forall₂_map_right_iff, List.forall₂_same]
    intro r hr
    cases hfind : (weekly_epa_updates pbp players tbl year).find? (fun u =>
        decide (r.playerId = u.player_id) && decide (r.season = year) &&
          (r.week == some u.week)) with
    | none =>
      have hid : applyEpaUpdate year (weekly_epa_updates pbp players tbl year) r
          = r := by
        unfold applyEpaUpdate
        rw [hfind]
      rw [hid]
      exact ⟨⟨rfl, rfl, rfl, rfl, rfl, rfl, rfl, rfl, rfl, rfl, rfl, rfl, rfl,
        rfl, rfl, rfl, rfl, rfl, rfl⟩, Or.inr rfl⟩
    | some u =>
      have hpred := List.find?_some hfind
      simp only [Bool.and_eq_true, decide_eq_true_eq, beq_iff_eq] at hpred
      obtain ⟨⟨hpid, hseason⟩, hweek⟩ := hpred
      have humem : u ∈ weekly_epa_updates pbp players tbl year :=
        List.mem_of_find?_eq_some hfind
      have hupd : applyEpaUpdate year (weekly_epa_updates pbp players tbl year) r
          = { r with
              passing_epa := u.passing_epa
              passing_epa_per_play := u.passing_epa_per_play
              passing_success_rate := u.passing_success_rate
              rushing_epa := u.rushing_epa
              rushing_epa_per_play := u.rushing_epa_per_play
              rushing_success_rate := u.rushing_success_rate
              receiving_epa := u.receiving_epa
              receiving_epa_per_play := u.receiving_epa_per_play
              receiving_success_rate := u.receiving_success_rate
              epa := u.epa
              success_rate := u.success_rate } := by
        unfold applyEpaUpdate
        rw [hfind]
      rw [hupd]
      refine ⟨⟨rfl, rfl, rfl, rfl, rfl, rfl, rfl, rfl, rfl, rfl, rfl, rfl, rfl,
        rfl, rfl, rfl, rfl, rfl, rfl⟩, Or.inl ⟨hseason, u.week, hweek, ?_⟩⟩
      rw [hpid]
      exact weekly_epa_updates_target pbp players tbl year u humem

/-- **C6 (counterexample).** A sacked spike-type play flagged as a pass
attempt does contribute to the weekly passing aggregation: for the
one-play sample it yields passing count 1 and passing EPA -2, even though
the §4.3 qualification filters (medians aggregator and boxscore aggregator
alike) reject the play. -/
theorem weekly_passing_filter_counterexample :
    (weeklyMetrics [sackedSpikePlay] "Q1" 1).passing_count = 1 ∧
    (weeklyMetrics [sackedSpikePlay] "Q1" 1).passing_epa = some (-2) ∧
    [sackedSpikePlay].filter (passVecFilter 2025 (some "Q1")) = [] ∧
    [sackedSpikePlay].filter (passAggQual (some "Q1")) = [] := by
  refine ⟨by decide, ?_, by decide, by decide⟩
  show (if (weeklyPassPlays [sackedSpikePlay] "Q1" 1).length = 0 then none
    else some (epaSum (weeklyPassPlays [sackedSpikePlay] "Q1" 1))) = some (-2)
  have h1 : weeklyPassPlays [sackedSpikePlay] "Q1" 1 = [sackedSpikePlay] := rfl
  rw [h1]
  norm_num [epaSum, sackedSpikePlay, basePlay, List.filterMap_cons,
    List.filterMap_nil, List.sum_cons, List.sum_nil]

/-- **C6 (amended).** The weekly EPA computation qualifies passing plays by
the pass-attempt flag alone — no sack or spike exclusion: any flagged pass
attempt of the passer/week is in the aggregated group, making the count
positive and the EPA sum the sum over that unfiltered group; when such a
play is sacked or spiked, the §4.3 per-attempt filter would exclude it. -/
theorem weekly_passing_mask_amended (pbp : List Play) (pfr : String) (w : Int)
    (pb : Play) (hmem : pb ∈ pbp) (hatt : pb.pass_attempt = true)
    (hpass : pb.passer_player_id = some pfr) (hweek : pb.week = some w) :
    pb ∈ weeklyPassPlays pbp pfr w ∧
    0 < (weeklyMetrics pbp pfr w).passing_count ∧
    (weeklyMetrics pbp pfr w).passing_epa =
      some (epaSum (weeklyPassPlays pbp pfr w)) ∧
    (pb.sack = true ∨ pb.play_type = "qb_spike" →
      passVecFilter pb.season (some pfr) pb = false) := by
  have hm : pb ∈ weeklyPassPlays pbp pfr w := by
    rw [weeklyPassPlays, List.mem_filter]
    exact ⟨hmem, by simp [hatt, hpass, hweek]⟩
  have hpc : (weeklyPassPlays pbp pfr w).length ≠ 0 := by
    intro h0
    rw [List.length_eq_zero] at h0
    rw [h0] at hm
    exact absurd hm (List.not_mem_nil pb)
  refine ⟨hm, Nat.pos_of_ne_zero hpc, ?_, ?_⟩
  · show (if (weeklyPassPlays pbp pfr w).length = 0 then none
      else some (epaSum (weeklyPassPlays pbp pfr w))) = _
    rw [if_neg hpc]
  · intro hexc
    rcases hexc with hs | hs
    · simp [passVecFilter, hs]
    · simp [passVecFilter, hs]

/-- Witness for the amended C6, at the sacked spiked pass attempt. -/
theorem weekly_passing_mask_amended_witness :
    sackedSpikePlay ∈ weeklyPassPlays [sackedSpikePlay] "Q1" 1 ∧
    0 < (weeklyMetrics [sackedSpikePlay] "Q1" 1).passing_count ∧
    (weeklyMetrics [sackedSpikePlay] "Q1" 1).passing_epa =
      some (epaSum (weeklyPassPlays [sackedSpikePlay] "Q1" 1)) ∧
    (sackedSpikePlay.sack = true ∨ sackedSpikePlay.play_type = "qb_spike" →
      passVecFilter sackedSpikePlay.season (some "Q1") sackedSpikePlay
        = false) :=
  weekly_passing_mask_amended [sackedSpikePlay] "Q1" 1 sackedSpikePlay
    (by decide) rfl rfl rfl

/-- **C10.** In the weekly GameStat rebuild, the stored CPOE of a
player-week with no qualifying passing play is `0`, not null — the average
of per-play CPOE is coalesced to zero when there is nothing to average. -/
theorem gamestat_cpoe_coalesced_zero (plays : List Play) (pw : PlayerWeek)
    (h : (pwPlays plays pw).filter (passAggQual pw.pfr_id) = []) :
    (insert_all_stats_row plays pw).cpoe = some 0 ∧
    (insert_all_stats_row plays pw).cpoe ≠ none := by
  have hc : (insert_all_stats_row plays pw).cpoe = some 0 := by
    show some ((sqlAvg (((pwPlays plays pw).filter
      (passAggQual pw.pfr_id)).filterMap (·.cpoe))).getD 0) = some 0
    rw [h]
    rfl
  exact ⟨hc, by rw [hc]; exact Option.some_ne_none 0⟩

/-- Witness for C10: the rushing-only player-week stores CPOE zero. -/
theorem gamestat_cpoe_coalesced_zero_witness :
    (insert_all_stats_row [rushPlay7] rushPw).cpoe = some 0 ∧
    (insert_all_stats_row [rushPlay7] rushPw).cpoe ≠ none :=
  gamestat_cpoe_coalesced_zero [rushPlay7] rushPw (by decide)

/-- Characterization of a weekly role-EPA field: null exactly on an empty
qualifying group; on a nonempty group it is the (possibly zero) EPA sum. -/
theorem weekly_role_epa_char (g : List Play) :
    ((if g.length = 0 then none else some (epaSum g)) = none ↔ g = []) ∧
    (g ≠ [] →
      (if g.length = 0 then none else some (epaSum g)) = some (epaSum g)) := by
  constructor
  · constructor
    · intro h
      by_cases h0 : g.length = 0
      · exact List.length_eq_zero.mp h0
      · rw [if_neg h0] at h
        exact absurd h (by simp)
    · intro h
      subst h
      rfl
  · intro hne
    rw [if_neg (by simpa [← List.length_eq_zero] using hne)]

/-- **C2 (counterexample).** A player with rushing plays in two weeks whose
weekly rushing EPAs are +1 and -1: the weekly rows are non-null (so
qualifying rushing plays exist and their EPA sums to exactly 0), yet the
historical seasonal path stores `rushing_epa = null`, not `0`. -/
theorem seasonal_zero_epa_counterexample :
    (weeklyMetrics c2Pbp "R2" 1).rushing_epa = some 1 ∧
    (weeklyMetrics c2Pbp "R2" 2).rushing_epa = some (-1) ∧
    sqlSumOpt ([c2Gs1, c2Gs2].map (·.rushing_epa)) = some 0 ∧
    (populate_historical_record [c2Gs1, c2Gs2] 2024 5).map (·.rushing_epa) =
      some none := by
  have hw1 : (weeklyMetrics c2Pbp "R2" 1).rushing_epa = some 1 := by
    show (if (weeklyRushPlays c2Pbp "R2" 1).length = 0 then none
      else some (epaSum (weeklyRushPlays c2Pbp "R2" 1))) = some 1
    have h : weeklyRushPlays c2Pbp "R2" 1 = [c2RushW1] := rfl
    rw [h]
    norm_num [epaSum, c2RushW1, basePlay, List.filterMap_cons,
      List.filterMap_nil, List.sum_cons, List.sum_nil]
  have hw2 : (weeklyMetrics c2Pbp "R2" 2).rushing_epa = some (-1) := by
    show (if (weeklyRushPlays c2Pbp "R2" 2).length = 0 then none
      else some (epaSum (weeklyRushPlays c2Pbp "R2" 2))) = some (-1)
    have h : weeklyRushPlays c2Pbp "R2" 2 = [c2RushW2] := rfl
    rw [h]
    norm_num [epaSum, c2RushW2, basePlay, List.filterMap_cons,
      List.filterMap_nil, List.sum_cons, List.sum_nil]
  have hmap : [c2Gs1, c2Gs2].map (·.rushing_epa) = [some 1, some (-1)] := by
    have e1 : c2Gs1.rushing_epa = (weeklyMetrics c2Pbp "R2" 1).rushing_epa := rfl
    have e2 : c2Gs2.rushing_epa = (weeklyMetrics c2Pbp "R2" 2).rushing_epa := rfl
    simp [e1, e2, hw1, hw2]
  have hsum : sqlSumOpt ([c2Gs1, c2Gs2].map (·.rushing_epa)) = some 0 := by
    rw [hmap]
    norm_num [sqlSumOpt, List.filterMap_cons, List.filterMap_nil,
      List.sum_cons, List.sum_nil]
  refine ⟨hw1, hw2, hsum, ?_⟩
  have hrows : histGroupRows [c2Gs1, c2Gs2] 2024 5 = [c2Gs1, c2Gs2] := rfl
  have hrecv : sqlSumOpt ([c2Gs1, c2Gs2].map (·.receiving_epa)) = some 2 := by
    have e1 : c2Gs1.receiving_epa =
        (weeklyMetrics c2Pbp "R2" 1).receiving_epa := rfl
    have e2 : c2Gs2.receiving_epa =
        (weeklyMetrics c2Pbp "R2" 2).receiving_epa := rfl
    have h1 : (weeklyMetrics c2Pbp "R2" 1).receiving_epa = some 2 := by
      show (if (weeklyRecvPlays c2Pbp "R2" 1).length = 0 then none
        else some (epaSum (weeklyRecvPlays c2Pbp "R2" 1))) = some 2
      have h : weeklyRecvPlays c2Pbp "R2" 1 = [c2Recv] := rfl
      rw [h]
      norm_num [epaSum, c2Recv, basePlay, List.filterMap_cons,
        List.filterMap_nil, List.sum_cons, List.sum_nil]
    have h2 : (weeklyMetrics c2Pbp "R2" 2).receiving_epa = none := by
      show (if (weeklyRecvPlays c2Pbp "R2" 2).length = 0 then none
        else some (epaSum (weeklyRecvPlays c2Pbp "R2" 2))) = none
      have h : weeklyRecvPlays c2Pbp "R2" 2 = [] := rfl
      rw [h]
      rfl
    rw [show [c2Gs1, c2Gs2].map (·.receiving_epa) =
      [some 2, none] by simp [e1, e2, h1, h2]]
    norm_num [sqlSumOpt, List.filterMap_cons, List.filterMap_nil,
      List.sum_cons, List.sum_nil]
  have htp : histTotalPlays [c2Gs1, c2Gs2] ≠ 0 := by
    unfold histTotalPlays
    rw [hrecv]
    have : epaPlayFlag (some 2) = 1 := by
      norm_num [epaPlayFlag]
    omega
  unfold populate_historical_record
  rw [hrows, if_neg (by simp), if_neg htp]
  rw [Option.map_some']
  congr 1
  show (match sqlSumOpt ([c2Gs1, c2Gs2].map (·.rushing_epa)) with
    | some v => if v = 0 then none else some v
    | none => none) = none
  rw [hsum]
  simp

/-- **C2 (amended).** Weekly GameStat EPA fields honour the null-vs-zero
rule: a role EPA is null exactly when the player has no qualifying play in
the role that week, and with at least one qualifying play it is the EPA sum,
zero included.  The seasonal AdvancedMetrics fields of the historical path
do not: a role's stored EPA is null exactly when the summed weekly EPA is
null *or exactly zero* (an exact-zero season is coerced to null). -/
theorem epa_null_vs_zero_amended (pbp : List Play) (pfr : String) (w : Int)
    (tbl : List GameStat) (season : Int) (pid : Int) :
    ((weeklyMetrics pbp pfr w).passing_epa = none ↔
      weeklyPassPlays pbp pfr w = []) ∧
    (weeklyPassPlays pbp pfr w ≠ [] →
      (weeklyMetrics pbp pfr w).passing_epa =
        some (epaSum (weeklyPassPlays pbp pfr w))) ∧
    ((weeklyMetrics pbp pfr w).rushing_epa = none ↔
      weeklyRushPlays pbp pfr w = []) ∧
    (weeklyRushPlays pbp pfr w ≠ [] →
      (weeklyMetrics pbp pfr w).rushing_epa =
        some (epaSum (weeklyRushPlays pbp pfr w))) ∧
    ((weeklyMetrics pbp pfr w).receiving_epa = none ↔
      weeklyRecvPlays pbp pfr w = []) ∧
    (weeklyRecvPlays pbp pfr w ≠ [] →
      (weeklyMetrics pbp pfr w).receiving_epa =
        some (epaSum (weeklyRecvPlays pbp pfr w))) ∧
    (∀ rec, populate_historical_record tbl season pid = some rec →
      (rec.rushing_epa = none ↔
        (sqlSumOpt ((histGroupRows tbl season pid).map (·.rushing_epa)) = none ∨
          sqlSumOpt ((histGroupRows tbl season pid).map (·.rushing_epa)) =
            some 0))) := by
  refine ⟨(weekly_role_epa_char _).1, (weekly_role_epa_char _).2,
    (weekly_role_epa_char _).1, (weekly_role_epa_char _).2,
    (weekly_role_epa_char _).1, (weekly_role_epa_char _).2, ?_⟩
  intro rec hrec
  unfold populate_historical_record at hrec
  simp only [] at hrec
  by_cases hempty : (histGroupRows tbl season pid).isEmpty
  · rw [if_pos hempty] at hrec
    exact absurd hrec (by simp)
  · rw [if_neg hempty] at hrec
    by_cases htp : histTotalPlays (histGroupRows tbl season pid) = 0
    · rw [if_pos htp] at hrec
      exact absurd hrec (by simp)
    · rw [if_neg htp] at hrec
      rw [Option.some_inj] at hrec
      subst hrec
      show (match sqlSumOpt ((histGroupRows tbl season pid).map (·.rushing_epa)) with
        | some v => if v = 0 then none else some v
        | none => none) = none ↔ _
      cases hsum : sqlSumOpt ((histGroupRows tbl season pid).map (·.rushing_epa)) with
      | none => simp
      | some v =>
        by_cases hv : v = 0
        · subst hv
          simp
        · simp [hv]

/-- Witness for the amended C2 at the concrete two-week rushing sample. -/
theorem epa_null_vs_zero_amended_witness :
    (weeklyMetrics c2Pbp "R2" 1).rushing_epa =
      some (epaSum (weeklyRushPlays c2Pbp "R2" 1)) :=
  ((epa_null_vs_zero_amended c2Pbp "R2" 1 [c2Gs1, c2Gs2] 2024 5).2.2.2.1)
    (by decide)

/-- **C8 (counterexample).** With six players violating the tolerance, the
verification query (`LIMIT 5`) reports only five: the sixth violating player
is mismatching but absent from the report — the enumeration is not
complete. -/
theorem verification_limit_counterexample :
    epa_mismatch_players c8Tbl c8Ams 2024 = c8Ams ∧
    (epa_verification c8Tbl c8Ams 2024).length = 5 ∧
    c8Am 6 ∈ epa_mismatch_players c8Tbl c8Ams 2024 ∧
    c8Am 6 ∉ epa_verification c8Tbl c8Ams 2024 := by
  have hmain : epa_mismatch_players c8Tbl c8Ams 2024 = c8Ams := by
    norm_num [epa_mismatch_players, epaMismatch, playerWeeklyRows, sqlSumOpt,
      c8Tbl, c8Ams, c8Gs, c8Am, baseGameStat, baseAM, List.filter_cons,
      List.filter_nil, List.filterMap_cons, List.filterMap_nil, List.sum_cons,
      List.sum_nil, abs]
  refine ⟨hmain, ?_, ?_, ?_⟩
  · rw [epa_verification, hmain]
    rfl
  · rw [hmain]
    norm_num [c8Ams]
  · rw [epa_verification, hmain]
    norm_num [c8Ams, c8Am, baseAM, List.take]

/-- **C8 (amended).** The Reconciliation Checker reports a sample of at most
five violating players (the query carries `LIMIT 5`): everything it reports
is a genuine violation of the 0.1 tolerance among the season's players with
weekly rows, and the enumeration is complete only when at most five players
violate; it is a pure read-only query (it computes a report from the stored
tables and modifies neither). -/
theorem verification_reports_up_to_five (tbl : List GameStat)
    (ams : List AdvancedMetricsRow) (year : Int) :
    (∀ am ∈ epa_verification tbl ams year,
      am ∈ epa_mismatch_players tbl ams year) ∧
    (epa_verification tbl ams year).length ≤ 5 ∧
    ((epa_mismatch_players tbl ams year).length ≤ 5 →
      epa_verification tbl ams year = epa_mismatch_players tbl ams year) ∧
    (∀ am ∈ epa_mismatch_players tbl ams year,
      am.season = year ∧ playerWeeklyRows tbl year am.playerId ≠ [] ∧
        epaMismatch tbl year am = true) := by
  refine ⟨?_, ?_, ?_, ?_⟩
  · intro am h
    exact List.mem_of_mem_take h
  · exact List.length_take_le 5 _
  · intro h
    exact List.take_of_length_le h
  · intro am h
    rw [epa_mismatch_players, List.mem_filter] at h
    obtain ⟨_, hcond⟩ := h
    simp only [Bool.and_eq_true, decide_eq_true_eq, Bool.not_eq_eq_eq_not,
      Bool.not_true] at hcond
    refine ⟨hcond.1.1, ?_, hcond.2⟩
    intro hnil
    rw [hnil] at hcond
    exact absurd hcond.1.2 (by simp)

/-- Witness for the amended C8: with a single violating player the report is
the complete violation list. -/
theorem verification_reports_up_to_five_witness :
    epa_verification c8Tbl [c8Am 1] 2024 =
      epa_mismatch_players c8Tbl [c8Am 1] 2024 :=
  (verification_reports_up_to_five c8Tbl [c8Am 1] 2024).2.2.1
    (le_trans (List.length_filter_le _ _) (by norm_num))

/-- **C7 (code bug).** The two AdvancedMetrics paths diverge far beyond the
0.1 reconciliation tolerance on a three-play sample: with two qualifying
passers present, the current-season script accumulates the rusher's EPA once
per passer-loop iteration (its rushing/receiving loops are nested inside the
passer loop), reporting seasonal rushing EPA 2, while the weekly value
computed from the same plays is 1 and the historical path (summing the
stored weekly rows) reports 1. -/
theorem current_vs_historical_divergence :
    populate2025_rushing_epa ["A", "B", "R"] c7Pbp "R" = some 2 ∧
    (weeklyMetrics c7Pbp "R" 1).rushing_epa = some 1 ∧
    (populate_historical_record [c7GsRow] 2025 3).map (·.rushing_epa) =
      some (some 1) ∧
    ¬ (|(2 : ℚ) - 1| ≤ 1/10) := by
  have hw : (weeklyMetrics c7Pbp "R" 1).rushing_epa = some 1 := by
    show (if (weeklyRushPlays c7Pbp "R" 1).length = 0 then none
      else some (epaSum (weeklyRushPlays c7Pbp "R" 1))) = some 1
    have h : weeklyRushPlays c7Pbp "R" 1 = [c7Rush] := rfl
    rw [h]
    norm_num [epaSum, c7Rush, basePlay, List.filterMap_cons,
      List.filterMap_nil, List.sum_cons, List.sum_nil]
  refine ⟨?_, hw, ?_, by norm_num⟩
  · have hpasser : passerIds c7Pbp = ["A", "B"] := rfl
    have hrusher : rusherIds c7Pbp = ["R"] := rfl
    have hrecv : receiverIds c7Pbp = [] := rfl
    have hrg : rushingGroup c7Pbp "R" = [c7Rush] := rfl
    have hpgA : passingGroup c7Pbp "A" = [c7PassA] := rfl
    have hpgB : passingGroup c7Pbp "B" = [c7PassB] := rfl
    have hcA : (["A", "B", "R"] : List String).contains "A" = true := rfl
    have hcB : (["A", "B", "R"] : List String).contains "B" = true := rfl
    have hcR : (["A", "B", "R"] : List String).contains "R" = true := rfl
    simp only [populate2025_rushing_epa, populate2025_epa, addRushingLoop,
      addReceivingLoop, hpasser, hrusher, hrecv, hcA, hcB, hcR,
      List.foldl_cons, List.foldl_nil, if_true]
    simp only [accFind, accSet, initAcc, hrg, hpgA, hpgB, epaSum, successSum,
      c7Rush, c7PassA, c7PassB, basePlay, List.find?_cons, List.find?_nil,
      List.any_cons, List.any_nil, List.filterMap_cons, List.filterMap_nil,
      List.sum_cons, List.sum_nil, List.map_cons, List.map_nil,
      List.append_nil, List.nil_append, List.cons_append, Option.map_none',
      Option.map_some', Option.getD_none, Option.getD_some, String.reduceEq,
      decide_False, decide_True, Bool.false_or, Bool.or_false, ite_true,
      ite_false, reduceIte, Option.isSome_none, Option.isSome_some,
      List.length_cons, List.length_nil, Bool.false_eq_true,
      Bool.true_eq_false]
    norm_num
  · have hrows : histGroupRows [c7GsRow] 2025 3 = [c7GsRow] := rfl
    have hsum : sqlSumOpt ([c7GsRow].map (·.rushing_epa)) = some 1 := by
      have e1 : c7GsRow.rushing_epa = (weeklyMetrics c7Pbp "R" 1).rushing_epa :=
        rfl
      rw [show [c7GsRow].map (·.rushing_epa) = [some 1] by simp [e1, hw]]
      norm_num [sqlSumOpt, List.filterMap_cons, List.filterMap_nil,
        List.sum_cons, List.sum_nil]
    have htp : histTotalPlays [c7GsRow] ≠ 0 := by
      unfold histTotalPlays
      rw [hsum]
      have : epaPlayFlag (some 1) = 1 := by norm_num [epaPlayFlag]
      omega
    unfold populate_historical_record
    rw [hrows, if_neg (by simp), if_neg htp]
    rw [Option.map_some']
    congr 1
    show (match sqlSumOpt ([c7GsRow].map (·.rushing_epa)) with
      | some v => if v = 0 then none else some v
      | none => none) = some 1
    rw [hsum]
    norm_num
